/-
Verification of the behavioural claims about the two CRUD web applications in
this repository: the Flask school portal (SchoolWebSite/SchoolWebsite_Python.py)
and the single-file Django hospital app
(HospitalSite/hospital_single_LOCAL_31222.py).

The relevant Python functions are embedded shallowly: strings are Lean
`String`s, database tables are Lean lists of records, request data are
explicit parameters, and each route handler becomes a pure function from the
old state to the response and the new state.
-/
import Mathlib

set_option maxRecDepth 4000

/-! # Part 1: definitions -/

/-! ## School site: the template engine helper `render`
    (SchoolWebsite_Python.py lines 453-479)

The helper uses two regexes:
  `re.sub(r'^\s*\{%\s*extends\s+["\']base["\']\s*%}\s*', '', child, count=1, flags=re.MULTILINE)`
  `re.search(r'\{%\s*block\s+content\s*%}([\s\S]*?)\{%\s*endblock\s*%}', child)`
Both are alternation-free with greedy whitespace classes that cannot steal a
required literal character, so they are modelled by deterministic scanners:
leftmost match position, greedy `\s*`/`\s+`, lazy middle group stopping at the
first endblock occurrence. -/

/-- Whitespace characters matched by the regex class `\s` (the ASCII ones,
which are the only ones appearing in the embedded templates). -/
def isWsRe (c : Char) : Bool :=
  c == '\x20' || c == '\x09' || c == '\x0a'
    || c == '\x0d' || c == '\x0b' || c == '\x0c'

/-- Greedy `\s*`: skip whitespace. -/
def skipWs : List Char → List Char
  | c :: cs => if isWsRe c then skipWs cs else c :: cs
  | [] => []

/-- Match a literal character sequence, returning the remaining input. -/
def matchLit : List Char → List Char → Option (List Char)
  | [], cs => some cs
  | _ :: _, [] => none
  | l :: ls, c :: cs => if c == l then matchLit ls cs else none

/-- `\s*` as a (never failing) matcher step. -/
def skipWsM (cs : List Char) : Option (List Char) :=
  some (skipWs cs)

/-- `\s+`: at least one whitespace character, then greedily more. -/
def wsPlusM : List Char → Option (List Char)
  | [] => none
  | c :: cs => if isWsRe c then some (skipWs cs) else none

/-- `["']`: one quote character, double or single. -/
def quoteM : List Char → Option (List Char)
  | [] => none
  | c :: cs => if c == '"' || c == '\x27' then some cs else none

/-- Match `\{%\s*block\s+content\s*%}` at the head of the input. -/
def matchBlockOpen (cs : List Char) : Option (List Char) :=
  (matchLit "\x7b%".data cs).bind fun c₁ =>
  (skipWsM c₁).bind fun c₂ =>
  (matchLit "block".data c₂).bind fun c₃ =>
  (wsPlusM c₃).bind fun c₄ =>
  (matchLit "content".data c₄).bind fun c₅ =>
  (skipWsM c₅).bind fun c₆ =>
  matchLit "%\x7d".data c₆

/-- Match `\{%\s*endblock\s*%}` at the head of the input. -/
def matchEndblock (cs : List Char) : Option (List Char) :=
  (matchLit "\x7b%".data cs).bind fun c₁ =>
  (skipWsM c₁).bind fun c₂ =>
  (matchLit "endblock".data c₂).bind fun c₃ =>
  (skipWsM c₃).bind fun c₄ =>
  matchLit "%\x7d".data c₄

/-- Match `\s*\{%\s*extends\s+["']base["']\s*%}\s*` at the head of the input
(the `^` line anchor is enforced by the caller `stripScan`). -/
def attemptExtends (cs : List Char) : Option (List Char) :=
  (skipWsM cs).bind fun c₁ =>
  (matchLit "\x7b%".data c₁).bind fun c₂ =>
  (skipWsM c₂).bind fun c₃ =>
  (matchLit "extends".data c₃).bind fun c₄ =>
  (wsPlusM c₄).bind fun c₅ =>
  (quoteM c₅).bind fun c₆ =>
  (matchLit "base".data c₆).bind fun c₇ =>
  (quoteM c₇).bind fun c₈ =>
  (skipWsM c₈).bind fun c₉ =>
  (matchLit "%\x7d".data c₉).bind fun c₁₀ =>
  skipWsM c₁₀

/-- Leftmost-match search: at each position of the input try `m`; on the first
success return the text before that position together with `m`'s result. -/
def findSplit (m : List Char → Option α) : List Char → Option (List Char × α)
  | [] =>
    match m [] with
    | some r => some ([], r)
    | none => none
  | c :: cs =>
    match m (c :: cs) with
    | some r => some ([], r)
    | none => (findSplit m cs).map fun p => (c :: p.1, p.2)

/-- A full match attempt of the block regex at one position: the block-open
pattern, then the lazy group up to the first following endblock pattern. -/
def blockAttempt (cs : List Char) : Option (List Char) :=
  (matchBlockOpen cs).bind fun rest =>
    (findSplit matchEndblock rest).map (·.1)

/-- `re.search(r'\{%\s*block\s+content\s*%}([\s\S]*?)\{%\s*endblock\s*%}', child)`:
the content of group 1 of the leftmost match, if any. -/
def searchBlockContent (cs : List Char) : Option (List Char) :=
  (findSplit blockAttempt cs).map (·.2)

/-- The `re.sub(..., '', child, count=1, flags=re.MULTILINE)` scan: at every
line-start position try the extends pattern and delete the first match. -/
def stripScan : Bool → List Char → List Char
  | _, [] => []
  | atLS, c :: cs =>
    if atLS then
      match attemptExtends (c :: cs) with
      | some rest => rest
      | none => c :: stripScan (c == '\n') cs
    else c :: stripScan (c == '\n') cs

/-- The `child = re.sub(r'^\s*\{%\s*extends ...', '', child, count=1, ...)`
step of `render`. -/
def stripExtends (child : String) : String :=
  String.mk (stripScan true child.data)

/-- The inner text `render` extracts from a child template
(SchoolWebsite_Python.py lines 464-472): the lazy group of the block regex on
the extends-stripped child if the regex matches, the whole stripped child
otherwise. -/
def codeInner (child : String) : String :=
  match searchBlockContent (stripExtends child).data with
  | some inner => String.mk inner
  | none => stripExtends child

/-- The second line of every child template in `template_env`. -/
def blockContentLine : String := "\x7b% block content %\x7d\n"

/-- The closing line of every child template in `template_env`. -/
def endblockLine : String := "\x7b% endblock %\x7d\n"

/-- The line structure shared by all child templates of the school site: a
blank first line, the block-content line, the body, and the endblock line
followed by the empty trailing piece. -/
def childLines (body : List String) : List String :=
  ("\n" :: blockContentLine :: body) ++ [endblockLine, ""]

/-- Concatenate a list of lines into one string. -/
def joinLines (ls : List String) : String :=
  ls.foldr (fun a b => a ++ b) ""

def blockContentMarker : String := "\x7b% block content %\x7d"
def endblockMarker : String := "\x7b% endblock %\x7d"
def extendsMarker : String := "\x7b% extends \"base\" %\x7d"

/-- Modelled from the claim's words: the child template's text between the
first `{% block content %}` and the following `{% endblock %}`, or the whole
child template if no such block exists, after stripping a leading
`{% extends "base" %}` tag. -/
def stripLeadingExtends (child : String) : String :=
  if extendsMarker.data.isPrefixOf child.data then
    String.mk (child.data.drop extendsMarker.data.length)
  else child

def specInner (child : String) : String :=
  match findSplit (matchLit blockContentMarker.data) child.data with
  | some (_, rest) =>
    match findSplit (matchLit endblockMarker.data) rest with
    | some (inner, _) => String.mk inner
    | none => stripLeadingExtends child
  | none => stripLeadingExtends child

/-! ### Determined-outcome evaluators

To reason about the scanners on the multi-kilobyte embedded templates without
evaluating them monolithically, each matcher gets a three-valued twin that runs
on a finite prefix of the input and reports whether the matcher's outcome is
already determined no matter how the input continues: `.fail` (fails on every
extension), `.ok r` (succeeds with remainder `r` followed by the extension), or
`.more` (undetermined, the prefix ran out). -/

inductive MRes where
  | fail : MRes
  | more : MRes
  | ok : List Char → MRes
deriving DecidableEq

def MRes.seq : MRes → (List Char → MRes) → MRes
  | .fail, _ => .fail
  | .more, _ => .more
  | .ok r, f => f r

def matchLitD : List Char → List Char → MRes
  | [], cs => .ok cs
  | _ :: _, [] => .more
  | l :: ls, c :: cs => if c == l then matchLitD ls cs else .fail

def skipWsD : List Char → MRes
  | [] => .more
  | c :: cs => if isWsRe c then skipWsD cs else .ok (c :: cs)

def wsPlusD : List Char → MRes
  | [] => .more
  | c :: cs => if isWsRe c then skipWsD cs else .fail

def blockOpenD (cs : List Char) : MRes :=
  (matchLitD "\x7b%".data cs).seq fun c₁ =>
  (skipWsD c₁).seq fun c₂ =>
  (matchLitD "block".data c₂).seq fun c₃ =>
  (wsPlusD c₃).seq fun c₄ =>
  (matchLitD "content".data c₄).seq fun c₅ =>
  (skipWsD c₅).seq fun c₆ =>
  matchLitD "%\x7d".data c₆

def endblockD (cs : List Char) : MRes :=
  (matchLitD "\x7b%".data cs).seq fun c₁ =>
  (skipWsD c₁).seq fun c₂ =>
  (matchLitD "endblock".data c₂).seq fun c₃ =>
  (skipWsD c₃).seq fun c₄ =>
  matchLitD "%\x7d".data c₄

/-- `d` certifies failures of `m`: whenever `d` reports a determined failure on
a prefix, `m` fails on every extension of that prefix. -/
def DFail (d : List Char → MRes) (m : List Char → Option (List Char)) : Prop :=
  ∀ s ext, d s = .fail → m (s ++ ext) = none

/-- `d` certifies successes of `m` as well. -/
def DOk (d : List Char → MRes) (m : List Char → Option (List Char)) : Prop :=
  ∀ s ext r, d s = .ok r → m (s ++ ext) = some (r ++ ext)

/-- `d` is a sound determined-outcome evaluator for `m`. -/
def DSound (d : List Char → MRes) (m : List Char → Option (List Char)) : Prop :=
  DFail d m ∧ DOk d m

/-- Check that the determined evaluator `d` fails on every nonempty suffix of a
chunk: then no match of the corresponding matcher can start inside the chunk,
whatever follows it. -/
def allSuffD (d : List Char → MRes) : List Char → Bool
  | [] => true
  | c :: cs => (d (c :: cs) == .fail) && allSuffD d cs

def base_lines0 : List String :=
  ["\n",
   "<!doctype html>\n",
   "<html>\n",
   "<head>\n",
   "  <meta charset=\"utf-8\">\n",
   "  <meta name=\"viewport\" content=\"width=device-width, initial-scale=1\">\n",
   "  <title>School Portal (Single-file)</title>\n",
   "  <link rel=\"preconnect\" href=\"https://fonts.googleapis.com\">\n",
   "  <link rel=\"preconnect\" href=\"https://fonts.gstatic.com\" crossorigin>\n",
   "  <link href=\"https://fonts.googleapis.com/css2?family=Inter:wght@300;400;600;700&display=swap\" rel=\"stylesheet\">\n",
   "  <style>\n",
   "    :root\x7b\n",
   "      --bg:#f5f7fb;\n",
   "      --card:#ffffff;\n",
   "      --muted:#6b7280;\n",
   "      --primary:#2563eb;\n",
   "      --accent:#06b6d4;\n",
   "      --success:#16a34a;\n",
   "      --danger:#dc2626;\n",
   "      --border: rgba(15,23,42,0.06);\n",
   "      --radius:12px;\n",
   "      --max-width:1100px;\n",
   "      font-family: \x27Inter\x27, system-ui, -apple-system, \x27Segoe UI\x27, Roboto, \x27Helvetica Neue\x27, Arial;\n",
   "    \x7d\n",
   "\n",
   "    html,body\x7bheight:100%; background:var(--bg); margin:0;\x7d\n",
   "    .container\x7bmax-width:var(--max-width); margin:28px auto; padding:22px;\x7d\n",
   "\n",
   "    header\x7bdisplay:flex;align-items:center;justify-content:space-between;margin-bottom:18px\x7d\n",
   "    header h1\x7bmargin:0;font-size:1.4rem;letter-spacing:0.2px\x7d\n"]

def base_lines1 : List String :=
  ["    header small\x7bdisplay:block;color:var(--muted);font-size:0.85rem\x7d\n",
   "\n",
   "    nav\x7bdisplay:flex;gap:8px;align-items:center\x7d\n",
   "    nav a\x7bdisplay:inline-block;padding:8px 12px;border-radius:8px;text-decoration:none;color:var(--muted);font-weight:600;font-size:0.95rem\x7d\n",
   "    nav a:hover\x7bbackground:rgba(15,23,42,0.03);color:var(--primary)\x7d\n",
   "    .nav-cta\x7bbackground:var(--primary);color:white;padding:8px 12px;border-radius:8px\x7d\n",
   "\n",
   "    main\x7bdisplay:block\x7d\n",
   "\n",
   "    .card\x7bbackground:var(--card);border-radius:var(--radius);box-shadow:0 6px 18px rgba(15,23,42,0.06);padding:18px;border:1px solid var(--border);margin-bottom:14px\x7d\n",
   "    .grid\x7bdisplay:grid;grid-template-columns:repeat(12,1fr);gap:16px\x7d\n",
   "    .col-8\x7bgrid-column:span 8\x7d\n",
   "    .col-4\x7bgrid-column:span 4\x7d\n",
   "\n",
   "    table\x7bwidth:100%;border-collapse:collapse;background:transparent\x7d\n",
   "    thead th\x7bbackground:transparent;text-align:left;padding:12px 10px;color:var(--muted);font-size:0.9rem\x7d\n",
   "    tbody td\x7bpadding:12px 10px;border-top:1px solid var(--border);background:var(--card)\x7d\n",
   "    tbody tr:hover td\x7bbackground:linear-gradient(180deg, rgba(245,247,250,0.8), rgba(255,255,255,0.6))\x7d\n",
   "\n",
   "    form p\x7bmargin:8px 0\x7d\n",
   "    input[type=\"text\"], input[type=\"password\"], input[type=\"date\"], textarea, select\x7bwidth:100%;padding:10px;border-radius:8px;border:1px solid var(--border);background:transparent;font-size:0.95rem\x7d\n",
   "    textarea\x7bmin-height:110px\x7d\n",
   "    button, .btn\x7bdisplay:inline-block;padding:10px 14px;border-radius:8px;border:0;background:var(--primary);color:white;font-weight:600;cursor:pointer\x7d\n",
   "    .btn-outline\x7bbackground:transparent;border:1px solid var(--border);color:var(--muted)\x7d\n",
   "\n",
   "    .flash\x7bpadding:10px 14px;margin-bottom:12px;border-radius:10px;font-weight:600\x7d\n",
   "    .flash-success\x7bbackground:rgba(16,185,129,0.12);color:var(--success);border:1px solid rgba(16,185,129,0.12)\x7d\n",
   "    .flash-danger\x7bbackground:rgba(220,38,38,0.08);color:var(--danger);border:1px solid rgba(220,38,38,0.08)\x7d\n",
   "    .flash-warning\x7bbackground:rgba(245,158,11,0.08);color:#b45309;border:1px solid rgba(245,158,11,0.08)\x7d\n",
   "\n"]

def base_lines2 : List String :=
  ["    footer\x7bmargin-top:22px;text-align:center;color:var(--muted);font-size:0.9rem\x7d\n",
   "\n",
   "    .small\x7bfont-size:0.9rem;color:var(--muted)\x7d\n",
   "\n",
   "    /* Responsive */\n",
   "    @media (max-width:900px)\x7b\n",
   "      .grid\x7bgrid-template-columns:repeat(6,1fr)\x7d\n",
   "      .col-8\x7bgrid-column:span 6\x7d\n",
   "      .col-4\x7bgrid-column:span 6\x7d\n",
   "      nav\x7bflex-wrap:wrap\x7d\n",
   "      header\x7bgap:8px\x7d\n",
   "    \x7d\n",
   "\n",
   "    @media (max-width:520px)\x7b\n",
   "      .container\x7bpadding:12px;margin:12px\x7d\n",
   "      header h1\x7bfont-size:1.1rem\x7d\n",
   "      nav a\x7bpadding:7px 8px;font-size:0.85rem\x7d\n",
   "    \x7d\n",
   "  </style>\n",
   "</head>\n",
   "<body>\n",
   "  <div class=\"container\">\n",
   "  <header>\n",
   "    <div>\n",
   "      <h1>School Portal</h1>\n",
   "      <small>Simple, fast, and friendly</small>\n",
   "    </div>\n",
   "    <nav>\n",
   "      \x7b% if current_user.is_authenticated %\x7d\n",
   "      <a href=\"\x7b\x7b url_for(\x27index\x27) \x7d\x7d\">Dashboard</a>\n"]

def base_lines3 : List String :=
  ["      <a href=\"\x7b\x7b url_for(\x27students\x27) \x7d\x7d\">Students</a>\n",
   "      <a href=\"\x7b\x7b url_for(\x27enroll\x27) \x7d\x7d\">Enroll</a>\n",
   "      <a href=\"\x7b\x7b url_for(\x27attendance\x27) \x7d\x7d\">Attendance</a>\n",
   "      <a href=\"\x7b\x7b url_for(\x27grades\x27) \x7d\x7d\">Grades</a>\n",
   "      <a href=\"\x7b\x7b url_for(\x27report\x27) \x7d\x7d\">Reports</a>\n",
   "      <a href=\"\x7b\x7b url_for(\x27export_students\x27) \x7d\x7d\">Export CSV</a>\n",
   "      <a class=\"nav-cta\" href=\"\x7b\x7b url_for(\x27logout\x27) \x7d\x7d\">Logout</a>\n",
   "      \x7b% else %\x7d\n",
   "      <a class=\"nav-cta\" href=\"\x7b\x7b url_for(\x27login\x27) \x7d\x7d\">Login</a>\n",
   "      \x7b% endif %\x7d\n",
   "    </nav>\n",
   "  </header>\n",
   "\n",
   "  \x7b% with messages = get_flashed_messages(with_categories=true) %\x7d\n",
   "    \x7b% if messages %\x7d\n",
   "      \x7b% for category, msg in messages %\x7d\n",
   "        <div class=\"flash flash-\x7b\x7b category \x7d\x7d\">\x7b\x7b msg \x7d\x7d</div>\n",
   "      \x7b% endfor %\x7d\n",
   "    \x7b% endif %\x7d\n",
   "  \x7b% endwith %\x7d\n",
   "\n",
   "  \x7b\x7b child_content|safe \x7d\x7d\n",
   "\n",
   "  <footer>\n",
   "    &copy; School Portal — built with ❤️\n",
   "  </footer>\n",
   "  </div>\n",
   "</body>\n",
   "</html>\n",
   ""]

def base_lines : List String :=
  base_lines0 ++ base_lines1 ++ base_lines2 ++ base_lines3

/-- The base layout template `base_tpl` (SchoolWebsite_Python.py lines 98-217),
as the concatenation of its lines. -/
def base_tpl : String := joinLines base_lines

def login_body : List String :=
  ["  <div class=\"card\" style=\"max-width:480px;margin:0 auto\">\n",
   "    <h2 style=\"margin-top:0\">Login</h2>\n",
   "    <form method=\"post\">\n",
   "      \x7b\x7b form.hidden_tag() \x7d\x7d\n",
   "      <p>\x7b\x7b form.username.label \x7d\x7d<br>\x7b\x7b form.username(size=32) \x7d\x7d</p>\n",
   "      <p>\x7b\x7b form.password.label \x7d\x7d<br>\x7b\x7b form.password(size=32) \x7d\x7d</p>\n",
   "      <p>\x7b\x7b form.submit(class_=\x27btn\x27) \x7d\x7d</p>\n",
   "    </form>\n",
   "  </div>\n"]

/-- The child template `login_tpl` (SchoolWebsite_Python.py lines 219-231):
a blank line, `{% block content %}`, the body lines, `{% endblock %}`. -/
def login_tpl : String := joinLines (childLines login_body)

def index_body : List String :=
  ["  <div class=\"grid\">\n",
   "    <div class=\"col-8\">\n",
   "      <div class=\"card\">\n",
   "        <h2 style=\"margin-top:0\">Dashboard</h2>\n",
   "        <p>Total students: <strong>\x7b\x7b total_students \x7d\x7d</strong></p>\n",
   "        <p>Present today (\x7b\x7b today \x7d\x7d): <strong>\x7b\x7b present_count \x7d\x7d</strong></p>\n",
   "        <p><a class=\"btn btn-outline\" href=\"\x7b\x7b url_for(\x27students\x27) \x7d\x7d\">View all students</a></p>\n",
   "      </div>\n",
   "    </div>\n",
   "    <div class=\"col-4\">\n",
   "      <div class=\"card small\">\n",
   "        <h3 style=\"margin-top:0\">Quick Actions</h3>\n",
   "        <p><a class=\"btn\" href=\"\x7b\x7b url_for(\x27enroll\x27) \x7d\x7d\">Enroll Student</a></p>\n",
   "        <p><a class=\"btn btn-outline\" href=\"\x7b\x7b url_for(\x27attendance\x27) \x7d\x7d\">Mark Attendance</a></p>\n",
   "      </div>\n",
   "    </div>\n",
   "  </div>\n"]

/-- The child template `index_tpl` (SchoolWebsite_Python.py lines 233-253):
a blank line, `{% block content %}`, the body lines, `{% endblock %}`. -/
def index_tpl : String := joinLines (childLines index_body)

def students_body : List String :=
  ["  <div class=\"card\">\n",
   "    <h2 style=\"margin-top:0\">Students</h2>\n",
   "    <form method=\"get\" style=\"margin-bottom:14px;display:flex;gap:8px\">\n",
   "      <input type=\"text\" name=\"q\" placeholder=\"search name / roll\" value=\"\x7b\x7b q \x7d\x7d\" style=\"flex:1\">\n",
   "      <button class=\"btn\">Search</button>\n",
   "    </form>\n",
   "    <table>\n",
   "      <thead><tr><th>Roll</th><th>Name</th><th>Class</th><th>Email</th><th>Actions</th></tr></thead>\n",
   "      <tbody>\n",
   "    \x7b% for s in students %\x7d\n",
   "      <tr>\n",
   "        <td>\x7b\x7b s.roll_no \x7d\x7d</td>\n",
   "        <td>\x7b\x7b s.name \x7d\x7d</td>\n",
   "        <td>\x7b\x7b s.class_name or \"\" \x7d\x7d</td>\n",
   "        <td>\x7b\x7b s.email or \"\" \x7d\x7d</td>\n",
   "        <td><a href=\"\x7b\x7b url_for(\x27view_student\x27, student_id=s.id) \x7d\x7d\">View</a></td>\n",
   "      </tr>\n",
   "      \x7b% else %\x7d\n",
   "      <tr><td colspan=\"5\">No students found.</td></tr>\n",
   "    \x7b% endfor %\x7d\n",
   "      </tbody>\n",
   "    </table>\n",
   "  </div>\n"]

/-- The child template `students_tpl` (SchoolWebsite_Python.py lines 255-281):
a blank line, `{% block content %}`, the body lines, `{% endblock %}`. -/
def students_tpl : String := joinLines (childLines students_body)

def enroll_body : List String :=
  ["  <div class=\"card\" style=\"max-width:720px\">\n",
   "    <h2 style=\"margin-top:0\">Enroll Student</h2>\n",
   "    <form method=\"post\">\n",
   "      \x7b\x7b form.hidden_tag() \x7d\x7d\n",
   "      <p>\x7b\x7b form.roll_no.label \x7d\x7d<br>\x7b\x7b form.roll_no(size=24) \x7d\x7d</p>\n",
   "      <p>\x7b\x7b form.name.label \x7d\x7d<br>\x7b\x7b form.name(size=48) \x7d\x7d</p>\n",
   "      <p>\x7b\x7b form.email.label \x7d\x7d<br>\x7b\x7b form.email(size=48) \x7d\x7d</p>\n",
   "      <p>\x7b\x7b form.class_name.label \x7d\x7d<br>\x7b\x7b form.class_name(size=24) \x7d\x7d</p>\n",
   "      <p>\x7b\x7b form.extra.label \x7d\x7d<br>\x7b\x7b form.extra(rows=4, cols=60) \x7d\x7d</p>\n",
   "      <p>\x7b\x7b form.submit(class_=\x27btn\x27) \x7d\x7d</p>\n",
   "    </form>\n",
   "  </div>\n"]

/-- The child template `enroll_tpl` (SchoolWebsite_Python.py lines 283-298):
a blank line, `{% block content %}`, the body lines, `{% endblock %}`. -/
def enroll_tpl : String := joinLines (childLines enroll_body)

def attendance_body : List String :=
  ["  <div class=\"card\">\n",
   "    <h2 style=\"margin-top:0\">Attendance for \x7b\x7b selected_date \x7d\x7d</h2>\n",
   "    <form method=\"post\">\n",
   "      <p>Date: <input type=\"date\" name=\"date\" value=\"\x7b\x7b selected_date.isoformat() \x7d\x7d\"></p>\n",
   "      <table>\n",
   "        <thead><tr><th>Roll</th><th>Name</th><th>Status</th></tr></thead>\n",
   "        <tbody>\n",
   "        \x7b% for s in students %\x7d\n",
   "        <tr>\n",
   "          <td>\x7b\x7b s.roll_no \x7d\x7d</td>\n",
   "          <td>\x7b\x7b s.name \x7d\x7d</td>\n",
   "          <td>\n",
   "            <select name=\"status_\x7b\x7b s.id \x7d\x7d\">\n",
   "              \x7b% set st = existing.get(s.id) %\x7d\n",
   "              <option value=\"Present\" \x7b% if st and st.status==\x27Present\x27 %\x7dselected\x7b% endif %\x7d>Present</option>\n",
   "              <option value=\"Absent\" \x7b% if st and st.status==\x27Absent\x27 %\x7dselected\x7b% endif %\x7d>Absent</option>\n",
   "              <option value=\"Leave\" \x7b% if st and st.status==\x27Leave\x27 %\x7dselected\x7b% endif %\x7d>Leave</option>\n",
   "            </select>\n",
   "          </td>\n",
   "        </tr>\n",
   "        \x7b% endfor %\x7d\n",
   "        </tbody>\n",
   "      </table>\n",
   "      <p style=\"margin-top:12px\"><button type=\"submit\" class=\"btn\">Save Attendance</button></p>\n",
   "    </form>\n",
   "  </div>\n"]

/-- The child template `attendance_tpl` (SchoolWebsite_Python.py lines 300-329):
a blank line, `{% block content %}`, the body lines, `{% endblock %}`. -/
def attendance_tpl : String := joinLines (childLines attendance_body)

def grades_body : List String :=
  ["  <div class=\"grid\">\n",
   "    <div class=\"col-4\">\n",
   "      <div class=\"card\">\n",
   "        <h3 style=\"margin-top:0\">Add Grade</h3>\n",
   "        <form method=\"post\">\n",
   "          \x7b\x7b form.hidden_tag() \x7d\x7d\n",
   "          <p>\x7b\x7b form.student_id.label \x7d\x7d<br>\x7b\x7b form.student_id() \x7d\x7d</p>\n",
   "          <p>\x7b\x7b form.subject.label \x7d\x7d<br>\x7b\x7b form.subject(size=40) \x7d\x7d</p>\n",
   "          <p>\x7b\x7b form.marks.label \x7d\x7d<br>\x7b\x7b form.marks() \x7d\x7d</p>\n",
   "          <p>\x7b\x7b form.max_marks.label \x7d\x7d<br>\x7b\x7b form.max_marks() \x7d\x7d</p>\n",
   "          <p>\x7b\x7b form.term.label \x7d\x7d<br>\x7b\x7b form.term(size=30) \x7d\x7d</p>\n",
   "          <p>\x7b\x7b form.remarks.label \x7d\x7d<br>\x7b\x7b form.remarks(rows=2, cols=60) \x7d\x7d</p>\n",
   "          <p>\x7b\x7b form.submit(class_=\x27btn\x27) \x7d\x7d</p>\n",
   "        </form>\n",
   "      </div>\n",
   "    </div>\n",
   "    <div class=\"col-8\">\n",
   "      <div class=\"card\">\n",
   "        <h3 style=\"margin-top:0\">Recent Grades</h3>\n",
   "        <table>\n",
   "          <thead><tr><th>Student</th><th>Subject</th><th>Marks</th><th>Term</th><th>Remarks</th></tr></thead>\n",
   "          <tbody>\n",
   "          \x7b% for g in grades %\x7d\n",
   "            <tr>\n",
   "              <td>\x7b\x7b g.student.roll_no \x7d\x7d - \x7b\x7b g.student.name \x7d\x7d</td>\n",
   "              <td>\x7b\x7b g.subject \x7d\x7d</td>\n",
   "              <td>\x7b\x7b g.marks \x7d\x7d / \x7b\x7b g.max_marks \x7d\x7d</td>\n",
   "              <td>\x7b\x7b g.term \x7d\x7d</td>\n",
   "              <td>\x7b\x7b g.remarks or \"\" \x7d\x7d</td>\n",
   "            </tr>\n",
   "          \x7b% else %\x7d\n",
   "            <tr><td colspan=\"5\">No grades yet.</td></tr>\n",
   "          \x7b% endfor %\x7d\n",
   "          </tbody>\n",
   "        </table>\n",
   "      </div>\n",
   "    </div>\n",
   "  </div>\n"]

/-- The child template `grades_tpl` (SchoolWebsite_Python.py lines 331-372):
a blank line, `{% block content %}`, the body lines, `{% endblock %}`. -/
def grades_tpl : String := joinLines (childLines grades_body)

def view_student_body : List String :=
  ["  <div class=\"card\">\n",
   "    <h2 style=\"margin-top:0\">Student: \x7b\x7b s.roll_no \x7d\x7d - \x7b\x7b s.name \x7d\x7d</h2>\n",
   "    <p><strong>Class:</strong> \x7b\x7b s.class_name or \"\" \x7d\x7d &nbsp; <strong>Email:</strong> \x7b\x7b s.email or \"\" \x7d\x7d</p>\n",
   "    <p><strong>Notes:</strong> \x7b\x7b s.extra or \"—\" \x7d\x7d</p>\n",
   "  </div>\n",
   "\n",
   "  <div class=\"grid\">\n",
   "    <div class=\"col-6\">\n",
   "      <div class=\"card\">\n",
   "        <h3 style=\"margin-top:0\">Attendance (last 30)</h3>\n",
   "        <table>\n",
   "          <thead><tr><th>Date</th><th>Status</th></tr></thead>\n",
   "          <tbody>\n",
   "          \x7b% for a in attendances %\x7d\n",
   "            <tr><td>\x7b\x7b a.date \x7d\x7d</td><td>\x7b\x7b a.status \x7d\x7d</td></tr>\n",
   "          \x7b% else %\x7d\n",
   "            <tr><td colspan=\"2\">No attendance records.</td></tr>\n",
   "          \x7b% endfor %\x7d\n",
   "          </tbody>\n",
   "        </table>\n",
   "      </div>\n",
   "    </div>\n",
   "    <div class=\"col-6\">\n",
   "      <div class=\"card\">\n",
   "        <h3 style=\"margin-top:0\">Grades (last 30)</h3>\n",
   "        <table>\n",
   "          <thead><tr><th>Subject</th><th>Marks</th><th>Term</th><th>Remarks</th></tr></thead>\n",
   "          <tbody>\n",
   "          \x7b% for g in grades %\x7d\n",
   "            <tr><td>\x7b\x7b g.subject \x7d\x7d</td><td>\x7b\x7b g.marks \x7d\x7d / \x7b\x7b g.max_marks \x7d\x7d</td><td>\x7b\x7b g.term \x7d\x7d</td><td>\x7b\x7b g.remarks or \"\" \x7d\x7d</td></tr>\n",
   "          \x7b% else %\x7d\n",
   "            <tr><td colspan=\"4\">No grades recorded.</td></tr>\n",
   "          \x7b% endfor %\x7d\n",
   "          </tbody>\n",
   "        </table>\n",
   "      </div>\n",
   "    </div>\n",
   "  </div>\n"]

/-- The child template `view_student_tpl` (SchoolWebsite_Python.py lines 374-415):
a blank line, `{% block content %}`, the body lines, `{% endblock %}`. -/
def view_student_tpl : String := joinLines (childLines view_student_body)

def report_body : List String :=
  ["  <div class=\"card\">\n",
   "    <h2 style=\"margin-top:0\">Attendance Report (last 7 days)</h2>\n",
   "    <table>\n",
   "      <thead><tr><th>Date</th><th>Present</th><th>Total Students</th><th>% Present</th></tr></thead>\n",
   "      <tbody>\n",
   "      \x7b% for row in summary %\x7d\n",
   "        <tr>\n",
   "          <td>\x7b\x7b row.date \x7d\x7d</td>\n",
   "          <td>\x7b\x7b row.present \x7d\x7d</td>\n",
   "          <td>\x7b\x7b row.total \x7d\x7d</td>\n",
   "          <td>\x7b\x7b \"%.1f\"|format((row.present / (row.total or 1))*100) \x7d\x7d%</td>\n",
   "        </tr>\n",
   "      \x7b% endfor %\x7d\n",
   "      </tbody>\n",
   "    </table>\n",
   "  </div>\n"]

/-- The child template `report_tpl` (SchoolWebsite_Python.py lines 417-436):
a blank line, `{% block content %}`, the body lines, `{% endblock %}`. -/
def report_tpl : String := joinLines (childLines report_body)

/-- The school site's template registry `template_env`
(SchoolWebsite_Python.py lines 438-448). -/
def template_env : List (String × String) :=
  [("base", base_tpl),
   ("login.html", login_tpl),
   ("index.html", index_tpl),
   ("students.html", students_tpl),
   ("enroll.html", enroll_tpl),
   ("attendance.html", attendance_tpl),
   ("grades.html", grades_tpl),
   ("view_student.html", view_student_tpl),
   ("report.html", report_tpl)]

/-- The school site's `render` helper (SchoolWebsite_Python.py lines 453-479),
parameterized by the framework's `render_template_string` (`rts`, abstract: it
turns a template string and a context into HTML) and by the operation that
binds one extra keyword variable in a context (`bindCtx ctx name value`). -/
def render {Ctx : Type} (rts : String → Ctx → String)
    (bindCtx : Ctx → String → String → Ctx) (name : String) (ctx : Ctx) : Option String :=
  match template_env.lookup name with
  | none => none
  | some child => some (rts base_tpl (bindCtx ctx "child_content" (rts (codeInner child) ctx)))

/-! ## School site: data model and route handlers
    (SchoolWebsite_Python.py lines 28-68 and 484-643)

Dates (`datetime.date`) are modelled as integers (their ordinals): equality,
ordering and `timedelta` subtraction are what the handlers use. Database
tables are lists of records in insertion order; an unordered `.all()` query
returns the table in that order, `order_by` sorts it. -/

/-- Python dates, as their ordinal numbers. -/
abbrev PyDate : Type := Int

/-- The `User` model (lines 28-38); `password_hash` stores the output of
`generate_password_hash`. -/
structure SUser where
  id : Nat
  username : String
  password_hash : String
  role : String
deriving DecidableEq

/-- The `Student` model (lines 44-53). Nullable text columns are modelled as
strings, with `""` for NULL (the handlers only pass them through or render
them with `or ""`). -/
structure Student where
  id : Nat
  roll_no : String
  name : String
  email : String
  class_name : String
  extra : String
deriving DecidableEq

/-- The `Attendance` model (lines 55-59); the surrogate primary key is
omitted, no handler reads it. -/
structure AttRec where
  date : PyDate
  status : String
  student_id : Nat
deriving DecidableEq

/-- The `Grade` model (lines 61-68). `marks`/`max_marks` arrive from integer
form fields, so they are integers here. -/
structure GradeRec where
  id : Nat
  subject : String
  marks : Int
  max_marks : Int
  term : String
  remarks : String
  student_id : Nat
deriving DecidableEq

/-- The school site's database. -/
structure SchoolState where
  users : List SUser
  students : List Student
  attendance : List AttRec
  grades : List GradeRec
deriving DecidableEq

/-- A validated `EnrollForm` submission (lines 78-84). -/
structure EnrollData where
  roll_no : String
  name : String
  email : String
  class_name : String
  extra : String
deriving DecidableEq

/-- A validated `GradeForm` submission (lines 86-93): `max_marks` is an
optional field whose falsy values are replaced by 100 on save. -/
structure GradeData where
  student_id : Nat
  subject : String
  marks : Int
  max_marks : Option Int
  term : String
  remarks : String
deriving DecidableEq

/-- One request to the school site: the method, parsed query/form data and the
current date. `enrollForm`/`gradeForm` are `some` exactly when
`form.validate_on_submit()` succeeds; `args_date`/`form_date` hold the
already-`date.fromisoformat`-parsed date parameters (`none` when absent). -/
structure SchoolReq where
  method_post : Bool
  args_q : Option String
  args_date : Option PyDate
  form_date : Option PyDate
  form : List (String × String)
  enrollForm : Option EnrollData
  gradeForm : Option GradeData
  path_id : Option Nat
  today : PyDate

/-- Responses of the school site's handlers, carrying the data each page
renders. -/
inductive SchoolResp where
  | redirect (target : String)
  | dashboard (total_students : Nat) (present_count : Nat)
  | studentsPage (q : String) (shown : List Student)
  | enrollPage (flashes : List (String × String))
  | studentPage (s : Student) (attendances : List AttRec) (grades : List GradeRec)
  | gradesPage (shown : List GradeRec)
  | attendancePage (selected : PyDate) (students : List Student) (existing : List AttRec)
  | csvFile (rows : List (List String))
  | reportPage (summary : List (PyDate × Nat × Nat))
  | loginPage
  | notFound
  | dbError
deriving DecidableEq

/-- Try a matcher on every suffix of the input (the ways a `%` wildcard can
consume zero or more characters in SQL `LIKE` matching). -/
def tryDrops (m : List Char → Bool) : List Char → Bool
  | [] => m []
  | c :: s' => m (c :: s') || tryDrops m s'

/-- SQL `LIKE` pattern matching (case-insensitive, as `ilike` on SQLite for
ASCII): `%` matches any sequence, `_` any single character, other characters
match caselessly. -/
def likeMatch : List Char → List Char → Bool
  | [], s => s.isEmpty
  | p :: ps, s =>
    if p = '%' then tryDrops (likeMatch ps) s
    else
      match s with
      | [] => false
      | c :: s' =>
        if p = '_' then likeMatch ps s'
        else (p.toLower == c.toLower) && likeMatch ps s'

/-- `column.ilike(pattern)`. -/
def sqlIlike (pat s : String) : Bool :=
  likeMatch pat.data s.data

/-- The claim's search predicate: the needle occurs in the haystack as a
case-insensitive substring. -/
def containsCI (needle hay : String) : Prop :=
  needle.data.map Char.toLower <:+: hay.data.map Char.toLower

instance (needle hay : String) : Decidable (containsCI needle hay) :=
  inferInstanceAs (Decidable (_ <:+: _))

/-- `Student.query.order_by(Student.roll_no)`. -/
def sortByRoll (l : List Student) : List Student :=
  l.mergeSort fun a b => decide (a.roll_no ≤ b.roll_no)

/-- Python `str.strip()`: drop leading and trailing whitespace. -/
def pyStrip (s : String) : String :=
  String.mk (((s.data.dropWhile isWsRe).reverse.dropWhile isWsRe).reverse)

/-- `request.form.get(key, dflt)`. -/
def getFormD (form : List (String × String)) (key dflt : String) : String :=
  (form.lookup key).getD dflt

/-- The next autoincrement id for a table of identified rows. -/
def nextId (ids : List Nat) : Nat :=
  (ids.foldr max 0) + 1

/-- `index` (lines 516-522). -/
def indexHandler (st : SchoolState) (req : SchoolReq) : SchoolResp × SchoolState :=
  (.dashboard st.students.length
    (st.attendance.countP fun a => decide (a.date = req.today ∧ a.status = "Present")), st)

/-- `students` (lines 549-557). -/
def studentsHandler (st : SchoolState) (req : SchoolReq) : SchoolResp × SchoolState :=
  let q := req.args_q.getD ""
  if q ≠ "" then
    (.studentsPage q (st.students.filter fun s =>
      sqlIlike ("%" ++ q ++ "%") s.name || sqlIlike ("%" ++ q ++ "%") s.roll_no), st)
  else
    (.studentsPage q (sortByRoll st.students), st)

/-- `enroll` (lines 559-572). The duplicate check uses the submitted roll
number verbatim; the insert stores it stripped, and `db.session.commit()`
raises (modelled as `.dbError`, no row inserted) when the stripped value
collides with the UNIQUE constraint on `roll_no`. -/
def enrollHandler (st : SchoolState) (req : SchoolReq) : SchoolResp × SchoolState :=
  match req.enrollForm with
  | none => (.enrollPage [], st)
  | some f =>
    if st.students.any fun s => s.roll_no == f.roll_no then
      (.enrollPage [("Roll Number already exists.", "warning")], st)
    else
      let newS : Student :=
        { id := nextId (st.students.map (·.id)), roll_no := pyStrip f.roll_no,
          name := pyStrip f.name, email := f.email, class_name := f.class_name, extra := f.extra }
      if st.students.any fun s => s.roll_no == newS.roll_no then
        (.dbError, st)
      else
        (.redirect "students", { st with students := st.students ++ [newS] })

/-- `view_student` (lines 574-580). -/
def viewStudentHandler (st : SchoolState) (req : SchoolReq) : SchoolResp × SchoolState :=
  match req.path_id with
  | none => (.notFound, st)
  | some sid =>
    match st.students.find? (fun s => s.id == sid) with
    | none => (.notFound, st)
    | some s =>
      let atts := ((st.attendance.filter fun a => a.student_id == sid).mergeSort
        fun a b => decide (b.date ≤ a.date)).take 30
      let gs := ((st.grades.filter fun g => g.student_id == sid).mergeSort
        fun a b => decide (b.id ≤ a.id)).take 30
      (.studentPage s atts gs, st)

/-- `attendance` (lines 582-604): a POST deletes all attendance rows of the
submitted date and inserts one row per student with the submitted
`status_<id>` value, defaulting to `'Absent'`. A POST whose date field is
missing or unparsable raises in `date.fromisoformat` (modelled `.dbError`). -/
def attendanceHandler (st : SchoolState) (req : SchoolReq) : SchoolResp × SchoolState :=
  let selected := req.args_date.getD req.today
  let students := sortByRoll st.students
  if req.method_post then
    match req.form_date with
    | none => (.dbError, st)
    | some d =>
      let newRecs := students.map fun s =>
        AttRec.mk d (getFormD req.form ("status_" ++ toString s.id) "Absent") s.id
      (.redirect "attendance",
        { st with attendance := (st.attendance.filter fun a => !decide (a.date = d)) ++ newRecs })
  else
    (.attendancePage selected students (st.attendance.filter fun a => decide (a.date = selected)), st)

/-- `grades` (lines 606-619). -/
def gradesHandler (st : SchoolState) (req : SchoolReq) : SchoolResp × SchoolState :=
  match req.gradeForm with
  | some f =>
    let g : GradeRec :=
      { id := nextId (st.grades.map (·.id)), subject := pyStrip f.subject,
        marks := f.marks,
        max_marks := match f.max_marks with
          | none => 100
          | some v => if v = 0 then 100 else v,
        term := f.term, remarks := f.remarks, student_id := f.student_id }
    (.redirect "grades", { st with grades := st.grades ++ [g] })
  | none =>
    (.gradesPage ((st.grades.mergeSort fun a b => decide (b.id ≤ a.id)).take 100), st)

/-- `export_students` (lines 621-631). -/
def exportHandler (st : SchoolState) (_req : SchoolReq) : SchoolResp × SchoolState :=
  (.csvFile (["roll_no", "name", "email", "class_name", "extra"] ::
    (sortByRoll st.students).map fun s => [s.roll_no, s.name, s.email, s.class_name, s.extra]), st)

/-- `report` (lines 633-643). -/
def reportHandler (st : SchoolState) (req : SchoolReq) : SchoolResp × SchoolState :=
  let dates := (List.range 7).map fun i => req.today - (i : Int)
  (.reportPage (dates.map fun d =>
    (d, st.attendance.countP fun a => decide (a.date = d ∧ a.status = "Present"),
     st.students.length)), st)

/-- `login` (lines 524-542): renders the form / performs the session login;
it touches no database table. -/
def loginHandler (st : SchoolState) (_req : SchoolReq) : SchoolResp × SchoolState :=
  (.loginPage, st)

/-- `logout` (lines 544-547). -/
def logoutHandler (st : SchoolState) (_req : SchoolReq) : SchoolResp × SchoolState :=
  (.redirect "login", st)

/-- One routing entry: the rule, whether the view is wrapped in
`@login_required`, and the view function. -/
structure SchoolRoute where
  path : String
  login_required : Bool
  handler : SchoolState → SchoolReq → SchoolResp × SchoolState

/-- The school site's routing table with each view's `@login_required`
decoration (lines 516-643). `/init-admin` (lines 484-511) is modelled
separately as `initAdmin` since its request data differ. -/
def schoolRoutes : List SchoolRoute :=
  [⟨"/", true, indexHandler⟩,
   ⟨"/login", false, loginHandler⟩,
   ⟨"/logout", false, logoutHandler⟩,
   ⟨"/students", true, studentsHandler⟩,
   ⟨"/enroll", true, enrollHandler⟩,
   ⟨"/student/<int:student_id>", true, viewStudentHandler⟩,
   ⟨"/attendance", true, attendanceHandler⟩,
   ⟨"/grades", true, gradesHandler⟩,
   ⟨"/export/students.csv", true, exportHandler⟩,
   ⟨"/report", true, reportHandler⟩]

/-- Flask-Login request dispatch: a `@login_required` view with an
unauthenticated session short-circuits to a redirect to `login.login_view`
(`"login"`, line 23) without calling the view. -/
def dispatch (r : SchoolRoute) (authenticated : Bool) (st : SchoolState)
    (req : SchoolReq) : SchoolResp × SchoolState :=
  if r.login_required && !authenticated then (.redirect "login", st)
  else r.handler st req

/-- The claim's route list for C3: the data routes of the school portal. -/
def dataRoutePaths : List String :=
  ["/", "/students", "/enroll", "/student/<int:student_id>", "/attendance", "/grades",
   "/export/students.csv", "/report"]

/-- `request.form.get('password') or (request.json or {}).get('password')`
followed by the `if not newpw` truthiness test: the first non-empty password,
`none` when both sources are missing or empty. -/
def pyOr : Option String → Option String → Option String
  | some p, b => if p = "" then (match b with
      | some q => if q = "" then none else some q
      | none => none)
    else some p
  | none, b => match b with
    | some q => if q = "" then none else some q
    | none => none

/-- `u.set_password(newpw)` on the first user named `admin`
(`User.query.filter_by(username='admin').first()`). -/
def setAdminHash : List SUser → String → List SUser
  | [], _ => []
  | u :: us, h =>
    if u.username == "admin" then { u with password_hash := h } :: us
    else u :: setAdminHash us h

/-- `init_admin` (lines 484-511), parameterized by `generate_password_hash`
(`gph`). The handler performs no authentication check; the session state
`authenticated` is accepted and ignored, exactly as in the source. -/
def initAdmin (debug : Bool) (authenticated : Bool) (method_post : Bool)
    (formPw jsonPw : Option String) (gph : String → String)
    (st : SchoolState) : (Nat × String) × SchoolState :=
  if !debug then ((403, "Not allowed"), st)
  else if !method_post then ((200, "init-admin form"), st)
  else
    match pyOr formPw jsonPw with
    | none => ((400, "Provide password"), st)
    | some pw =>
      let users' :=
        match st.users.find? (fun u => u.username == "admin") with
        | some _ => setAdminHash st.users (gph pw)
        | none => st.users ++
            [{ id := nextId (st.users.map (·.id)), username := "admin",
               password_hash := gph pw, role := "admin" }]
      ((200, "Admin password set to: <strong>" ++ pw ++ "</strong> (use admin / " ++ pw ++ ")"),
       { st with users := users' })

/-- Sample data for witnesses and counterexamples. -/
def emptySchoolState : SchoolState := ⟨[], [], [], []⟩

def sampleSchoolReq : SchoolReq := ⟨false, none, none, none, [], none, none, none, 0⟩

def sampleStudent : Student := ⟨1, "R1", "Ann", "", "", ""⟩

def c6State : SchoolState := ⟨[], [sampleStudent], [], []⟩

def c6FreshForm : EnrollData := ⟨" R1 ", "Bob", "", "", ""⟩

def c6Req : SchoolReq := ⟨true, none, none, none, [], some c6FreshForm, none, none, 0⟩

def c6DupReq : SchoolReq := ⟨true, none, none, none, [], some ⟨"R1", "Bob", "", "", ""⟩, none, none, 0⟩

def c4State : SchoolState := ⟨[], [sampleStudent], [⟨5, "Present", 1⟩, ⟨7, "Leave", 1⟩], []⟩

def c4Req : SchoolReq := ⟨true, none, none, some 7, [("status_1", "Present")], none, none, none, 7⟩

def c5Req : SchoolReq := ⟨false, some "%", none, none, [], none, none, none, 0⟩

def c9State : SchoolState := ⟨[⟨1, "admin", "oldhash", "admin"⟩], [], [], []⟩

/-! ## Hospital site: data model and views
    (hospital_single_LOCAL_31222.py lines 182-214 and 465-601) -/

/-- The `Patient` model (lines 194-203). -/
structure Patient where
  id : Nat
  first_name : String
  last_name : String
  age : Int
  condition : String
deriving DecidableEq

/-- The `Doctor` model (lines 185-192) together with the fields of its linked
auth user that the views read (`get_full_name()` and `username`). -/
structure Doctor where
  id : Nat
  full_name : String
  username : String
deriving DecidableEq

/-- The `Appointment` model (lines 205-214); times are opaque minute counts. -/
structure Appointment where
  id : Nat
  doctor_id : Nat
  patient_id : Nat
  date : PyDate
  time : Int
deriving DecidableEq

/-- The hospital site's database. -/
structure HospState where
  patients : List Patient
  doctors : List Doctor
  appointments : List Appointment
deriving DecidableEq

/-- Django's `field__icontains=q`: the lookup value is escaped, so it is
exactly case-insensitive containment. -/
def icontains (field q : String) : Bool :=
  decide (containsCI q field)

/-- `Patient.objects.all().order_by("id")`. -/
def sortById (ps : List Patient) : List Patient :=
  ps.mergeSort fun a b => decide (a.id ≤ b.id)

/-- The patient rows `patients_list` (lines 467-483) builds before paginating:
all patients ordered by id, filtered by
`Q(first_name__icontains=q) | Q(last_name__icontains=q) | Q(condition__icontains=q)`
when the stripped `q` is non-empty. -/
def patients_list_patients (rawq : Option String) (st : HospState) : List Patient :=
  let q := pyStrip (rawq.getD "")
  let qs := sortById st.patients
  if q ≠ "" then
    qs.filter fun p => icontains p.first_name q || icontains p.last_name q || icontains p.condition q
  else qs

/-- The patient rows `export_patients` (lines 572-583) turns into CSV/XLSX
lines: the same query pipeline, written at its own call site. -/
def export_patients_rows (rawq : Option String) (st : HospState) : List Patient :=
  let q := pyStrip (rawq.getD "")
  let qs := sortById st.patients
  if q ≠ "" then
    qs.filter fun p => icontains p.first_name q || icontains p.last_name q || icontains p.condition q
  else qs

/-- `Paginator.num_pages` for `allow_empty_first_page=True`, `orphans=0`:
`ceil(max(1, count) / per_page)`. -/
def numPages (count per : Nat) : Nat :=
  (max 1 count + per - 1) / per

/-- `Page.object_list`: the slice `object_list[(number-1)*per : number*per]`. -/
def pageSlice (l : List Patient) (per page : Nat) : List Patient :=
  (l.drop ((page - 1) * per)).take per

/-- Every page of the paginator, in order. -/
def allPages (l : List Patient) (per : Nat) : List (List Patient) :=
  (List.range (numPages l.length per)).map fun i => pageSlice l per (i + 1)

/-- Python `int(str)`: optional surrounding whitespace, optional sign, then
digits with single underscores allowed between digits. The digit accumulator;
a leading underscore or two in a row is a `ValueError` (`none`). -/
def pyIntDigits : List Char → Nat → Option Nat
  | [], acc => some acc
  | '_' :: c :: cs, acc =>
    if c.isDigit then pyIntDigits cs (acc * 10 + (c.toNat - 48)) else none
  | ['_'], _ => none
  | c :: cs, acc =>
    if c.isDigit then pyIntDigits cs (acc * 10 + (c.toNat - 48)) else none

/-- The digit run after the sign: must start with a digit. -/
def pyIntCore : List Char → Option Nat
  | [] => none
  | c :: cs => if c.isDigit then pyIntDigits cs (c.toNat - 48) else none

/-- `int(s)` for a Python string, `none` when it raises `ValueError`. -/
def parsePyInt (s : String) : Option Int :=
  match (s.data.dropWhile isWsRe).reverse.dropWhile isWsRe |>.reverse with
  | '+' :: rest => (pyIntCore rest).map fun n => (n : Int)
  | '-' :: rest => (pyIntCore rest).map fun n => -(n : Int)
  | rest => (pyIntCore rest).map fun n => (n : Int)

/-- The page number `patients_list` serves (lines 470 and 484-490):
`page_num = request.GET.get("page") or 1`, then `paginator.page(page_num)`
with `except PageNotAnInteger: page(1)` and `except EmptyPage:
page(paginator.num_pages)`; Django's `validate_number` converts with `int()`,
raises `PageNotAnInteger` on failure and `EmptyPage` when the number is
below 1 or above `num_pages`. -/
def servedPage (pageParam : Option String) (np : Nat) : Nat :=
  let pn : Option Int :=
    match pageParam with
    | none => some 1
    | some s => if s = "" then some 1 else parsePyInt s
  match pn with
  | none => 1
  | some n => if n < 1 then np else if n > np then np else n.toNat

/-- `start = max(1, current-3); end = min(total, current+3);
page_range = list(range(start, end+1))` (lines 492-494). -/
def pageRangeList (current total : Nat) : List Nat :=
  List.range' (max 1 (current - 3)) (min total (current + 3) + 1 - max 1 (current - 3))

/-- The pagination-relevant outcome of one `patients_list` request: the rows
of the served page, the served page number, and the rendered page-number
navigation. `per` is the parsed `page_size` parameter (default 10). -/
def patients_list_response (rawq pageParam : Option String) (per : Nat) (st : HospState) :
    List Patient × Nat × List Nat :=
  let pats := patients_list_patients rawq st
  let np := numPages pats.length per
  let current := servedPage pageParam np
  (pageSlice pats per current, current, pageRangeList current np)

/-- A JSON value as produced by `json.loads` (restricted to the shapes the
AJAX endpoints receive); `jfloat m e` is the float `m / 10^e`. -/
inductive JVal where
  | jnull
  | jbool (b : Bool)
  | jint (n : Int)
  | jfloat (m : Int) (e : Nat)
  | jstr (s : String)
deriving DecidableEq

/-- Python `int(v)` on a JSON value: floats truncate toward zero, strings
parse as integer literals, booleans become 0/1, `None` raises. -/
def pyIntOfJVal : JVal → Option Int
  | .jnull => none
  | .jbool b => some (if b then 1 else 0)
  | .jint n => some n
  | .jfloat m e => some (m.tdiv ((10 : Int) ^ e))
  | .jstr s => parsePyInt s

/-- Python `str` of the decimal float `m / 10^e` (JSON float literals are
decimals, and `str` of such a float prints its shortest decimal form): sign,
integer part, `.`, the fraction digits with trailing zeros dropped but at
least one digit kept, so `str(5.5) = "5.5"` and `str(5e0) = "5.0"`. -/
def pyStrOfFloat (m : Int) (e : Nat) : String :=
  let n := m.natAbs
  let ipart := toString (n / 10 ^ e)
  let fstr := toString (n % 10 ^ e)
  let padded := String.mk (List.replicate (e - fstr.length) '0') ++ fstr
  let trimmed := String.mk ((padded.data.reverse.dropWhile fun c => c == '0').reverse)
  let frac := if trimmed = "" then "0" else trimmed
  (if m < 0 then "-" else "") ++ ipart ++ "." ++ frac

/-- What `setattr` leaves on one of the `CharField`s before `save()`:
JSON `null` is Python `None` (`none` here), which `CharField.to_python`
passes through unchanged; any other JSON value is stored as `str(v)`. -/
def pyCharOfJVal : JVal → Option String
  | .jnull => none
  | .jbool b => some (if b then "True" else "False")
  | .jint n => some (toString n)
  | .jfloat m e => some (pyStrOfFloat m e)
  | .jstr s => some s

/-- The row as it sits in memory between the `setattr` loop and `p.save()`:
the three char fields may hold Python `None`. -/
structure PendingPatient where
  id : Nat
  first_name : Option String
  last_name : Option String
  age : Int
  condition : Option String
deriving DecidableEq

/-- The in-memory view of a stored row before any `setattr`. -/
def pendingOf (p : Patient) : PendingPatient :=
  ⟨p.id, some p.first_name, some p.last_name, p.age, some p.condition⟩

/-- The update loop of `patients_ajax_update` (lines 528-538): walk
`data.items()` in order; keys outside the allowed set are ignored; an `age`
value is replaced by 0 when it is the empty string and otherwise converted
with `int()`, whose failure returns the 400 error (`none`) before any save. -/
def applyUpdates (p : PendingPatient) : List (String × JVal) → Option PendingPatient
  | [] => some p
  | (k, v) :: rest =>
    if k = "age" then
      match (if v = .jstr "" then some 0 else pyIntOfJVal v) with
      | none => none
      | some n => applyUpdates { p with age := n } rest
    else if k = "first_name" then applyUpdates { p with first_name := pyCharOfJVal v } rest
    else if k = "last_name" then applyUpdates { p with last_name := pyCharOfJVal v } rest
    else if k = "condition" then applyUpdates { p with condition := pyCharOfJVal v } rest
    else applyUpdates p rest

/-- `p.save()` as a statement against the NOT NULL columns: a `None` left on
any char field raises `IntegrityError` (`none`, caught by the blanket
handler), otherwise the row is written back. -/
def savePending (q : PendingPatient) : Option Patient :=
  match q.first_name, q.last_name, q.condition with
  | some f, some l, some c => some ⟨q.id, f, l, q.age, c⟩
  | _, _, _ => none

/-- The committed `UPDATE`: rewrite the row with primary key `pid`. -/
def updateById (ps : List Patient) (pid : Nat) (p' : Patient) : List Patient :=
  ps.map fun x => if x.id = pid then p' else x

/-- `patients_ajax_update` (lines 519-546). The request body is `none` when
`json.loads` raises (caught by the blanket handler, status 500); a failing
`save()` is also caught there, leaving the table unchanged. The response is
the HTTP status; 200 carries the saved state. -/
def patients_ajax_update (method_post : Bool)
    (payload : Option (JVal × List (String × JVal))) (st : HospState) : Nat × HospState :=
  if !method_post then (405, st)
  else
    match payload with
    | none => (500, st)
    | some (idv, data) =>
      match pyIntOfJVal idv with
      | none => (500, st)
      | some pid =>
        match st.patients.find? (fun p => ((p.id : Int) == pid)) with
        | none => (500, st)
        | some p =>
          match applyUpdates (pendingOf p) data with
          | none => (400, st)
          | some q =>
            match savePending q with
            | none => (500, st)
            | some p' => (200, { st with patients := updateById st.patients p.id p' })

/-! ## Hospital site: the `Context.__copy__` monkeypatch
    (hospital_single_LOCAL_31222.py lines 102-181)

The patched `_context_copy` manipulates `django.template.context.Context`
objects. The framework facts the model relies on (Django 4/5,
django/template/context.py):
  * `BaseContext.__init__` sets `dicts = [builtins]` with
    `builtins = {'True': True, 'False': False, 'None': None}`;
  * `duplicate[k] = v` writes into the topmost dict `dicts[-1]`;
  * lookup searches `reversed(dicts)`, later dicts shadow earlier ones;
  * `BaseContext.__iter__` yields `reversed(self.dicts)`, so `dict(self)`
    treats each member dict as a key/value sequence: it succeeds only when
    every member has exactly 2 keys (each contributing `key1 -> key2`) and
    raises `ValueError` otherwise;
  * `Context.update(other)` pushes a copy of `other` onto `dicts`;
  * `render_context.copy()` does not exist on `RenderContext`, so that
    branch of the patch always falls back to a fresh `RenderContext()`,
    modelled as `[builtinsDict]`.
Values are modelled by `PyVal`; dicts by insertion-ordered association lists
with unique keys. -/

/-- Python values stored in template contexts. -/
inductive PyVal where
  | str (s : String)
  | int (n : Int)
  | boolv (b : Bool)
  | nonev
  | raw (tag : Nat)
deriving DecidableEq

/-- A Python dict: insertion-ordered association list with unique keys. -/
abbrev PyDict : Type := List (String × PyVal)

/-- `d[k] = v`: replace in place when present, append otherwise. -/
def dictSet (d : PyDict) (k : String) (v : PyVal) : PyDict :=
  if d.any fun e => e.1 == k then d.map (fun e => if e.1 == k then (k, v) else e)
  else d ++ [(k, v)]

/-- `BaseContext`'s builtins dict. -/
def builtinsDict : PyDict :=
  [("True", .boolv true), ("False", .boolv false), ("None", .nonev)]

/-- The state of a `Context`/`RequestContext` object: `dicts` and
`_processors_index` are `none` when the attribute is absent. -/
structure Ctx where
  dicts : Option (List PyDict)
  processors_index : Option Int
  is_request_ctx : Bool
  render_context : Option (List PyDict)
deriving DecidableEq

/-- The visible mapping of a dicts stack: later dicts shadow earlier ones. -/
def visibleGet : List PyDict → String → Option PyVal
  | [], _ => none
  | d :: ds, k =>
    match visibleGet ds k with
    | some v => some v
    | none => d.lookup k

/-- `dict(seq)` over a sequence of dicts: every member must have exactly two
keys, contributing the pair `key1 -> key2`; otherwise `ValueError` (`none`). -/
def dictOfSeq : PyDict → List PyDict → Option PyDict
  | acc, [] => some acc
  | acc, [(k1, _), (k2, _)] :: rest => dictOfSeq (dictSet acc k1 (.str k2)) rest
  | _, _ => none

/-- `duplicate[k] = v`: write into the topmost dict. -/
def setTop : List PyDict → String → PyVal → List PyDict
  | [], _, _ => []
  | [d], k, v => [dictSet d k v]
  | d :: ds, k, v => d :: setTop ds k v

/-- The fallback loop `for d in self.dicts: for k, v in d.items():
duplicate[k] = v`. -/
def writeAll (ds : List PyDict) (src : List PyDict) : List PyDict :=
  src.foldl (fun acc d => d.foldl (fun acc' kv => setTop acc' kv.1 kv.2) acc) ds

/-- The top dict after a sequence of `duplicate[k] = v` writes, starting
from `d0`: each write lands in the top dict. -/
def topAfter (d0 : PyDict) (items : List (String × PyVal)) : PyDict :=
  items.foldl (fun acc kv => dictSet acc kv.1 kv.2) d0

/-- The value the last write of key `k` in `items` stores, if any. -/
def lastWrite (items : List (String × PyVal)) (k : String) : Option PyVal :=
  items.reverse.lookup k

/-- The index the patch computes: `idx = getattr(self, "_processors_index", 0)`
clamped below by 0 (`if idx < 0: idx = 0`). -/
def contextCopyIdx (self : Ctx) : Nat :=
  let idx0 : Int := self.processors_index.getD 0
  if idx0 < 0 then 0 else idx0.toNat

/-- `duplicate.dicts` after the copy (`[d.copy() for d in dicts]`, `[]` when
absent) and the padding loop `while len(duplicate.dicts) <= idx:
duplicate.dicts.append({})`. -/
def contextCopyPadded (self : Ctx) : List PyDict :=
  self.dicts.getD []
    ++ List.replicate (contextCopyIdx self + 1 - (self.dicts.getD []).length) []

/-- `duplicate.dicts` after the final mapping-copy step:
`try: duplicate.update(dict(self))` — `dict` iterates `reversed(self.dicts)`
and `update` pushes the result onto the stack — with the item-writing
fallback loop on `ValueError`. -/
def contextCopyDicts (self : Ctx) : List PyDict :=
  match dictOfSeq [] (self.dicts.getD []).reverse with
  | some garbage => contextCopyPadded self ++ [garbage]
  | none => writeAll (contextCopyPadded self) (self.dicts.getD [])

/-- The patched `Context.__copy__` (`_context_copy`, lines 110-178). The
constructor call of step one always succeeds and its `dicts`,
`_processors_index` and mapping content are fully overwritten by the later
steps, so only the overwritten fields appear. -/
def contextCopy (self : Ctx) : Ctx :=
  { dicts := some (contextCopyDicts self),
    processors_index := some ((contextCopyIdx self : Nat) : Int),
    is_request_ctx := self.is_request_ctx, render_context := some [builtinsDict] }

/-- A context state the hospital app produces during any template render:
two-deep dicts stack (builtins plus one pushed dict). -/
def c2Self : Ctx := ⟨some [builtinsDict, []], some 0, false, some [builtinsDict]⟩

/-! # Part 2: theorems -/

theorem mres_seq_fail {r : MRes} {f : List Char → MRes} :
    r.seq f = .fail ↔ r = .fail ∨ ∃ s, r = .ok s ∧ f s = .fail := by
  cases r <;> simp [MRes.seq]

theorem dsound_seq {d₁ : List Char → MRes} {m₁ : List Char → Option (List Char)}
    {d₂ : List Char → MRes} {m₂ : List Char → Option (List Char)}
    (h₁ : DSound d₁ m₁) (h₂ : DSound d₂ m₂) :
    DSound (fun s => (d₁ s).seq d₂) (fun s => (m₁ s).bind m₂) := by
  constructor
  · intro s ext h
    show (m₁ (s ++ ext)).bind m₂ = none
    simp only [] at h
    cases hr : d₁ s with
    | fail => rw [h₁.1 s ext hr]; rfl
    | more => rw [hr] at h; simp [MRes.seq] at h
    | ok r =>
      rw [h₁.2 s ext r hr]
      rw [hr] at h
      simp only [MRes.seq] at h
      simpa using h₂.1 r ext h
  · intro s ext q h
    show (m₁ (s ++ ext)).bind m₂ = some (q ++ ext)
    simp only [] at h
    cases hr : d₁ s with
    | fail => rw [hr] at h; simp [MRes.seq] at h
    | more => rw [hr] at h; simp [MRes.seq] at h
    | ok r =>
      rw [h₁.2 s ext r hr]
      rw [hr] at h
      simp only [MRes.seq] at h
      simpa using h₂.2 r ext q h

theorem dsound_matchLit (lit : List Char) : DSound (matchLitD lit) (matchLit lit) := by
  constructor
  · intro s ext h
    induction lit generalizing s with
    | nil => simp [matchLitD] at h
    | cons l ls ih =>
      cases s with
      | nil => simp [matchLitD] at h
      | cons c cs =>
        by_cases hc : (c == l) = true
        · simp only [matchLitD, hc, if_true] at h
          simpa [matchLit, hc] using ih cs h
        · simp only [Bool.not_eq_true] at hc
          simp [matchLit, hc]
  · intro s ext r h
    induction lit generalizing s with
    | nil =>
      simp only [matchLitD, MRes.ok.injEq] at h
      subst h; rfl
    | cons l ls ih =>
      cases s with
      | nil => simp [matchLitD] at h
      | cons c cs =>
        by_cases hc : (c == l) = true
        · simp only [matchLitD, hc, if_true] at h
          simpa [matchLit, hc] using ih cs h
        · simp [matchLitD, hc] at h

theorem skipWsD_ok {s r : List Char} (h : skipWsD s = .ok r) :
    ∀ ext, skipWs (s ++ ext) = r ++ ext := by
  induction s with
  | nil => simp [skipWsD] at h
  | cons c cs ih =>
    intro ext
    by_cases hc : isWsRe c = true
    · simp only [skipWsD, hc, if_true] at h
      simpa [skipWs, hc] using ih h ext
    · simp only [Bool.not_eq_true] at hc
      simp [skipWsD, hc] at h
      subst h
      simp [skipWs, hc]

theorem dsound_skipWs : DSound skipWsD skipWsM := by
  constructor
  · intro s ext h
    exfalso
    induction s with
    | nil => simp [skipWsD] at h
    | cons c cs ih =>
      by_cases hc : isWsRe c = true
      · simp only [skipWsD, hc, if_true] at h
        exact ih h
      · simp [skipWsD, hc] at h
  · intro s ext r h
    simp [skipWsM, skipWsD_ok h ext]

theorem dsound_wsPlus : DSound wsPlusD wsPlusM := by
  constructor
  · intro s ext h
    cases s with
    | nil => simp [wsPlusD] at h
    | cons c cs =>
      by_cases hc : isWsRe c = true
      · simp only [wsPlusD, hc, if_true] at h
        exfalso
        induction cs with
        | nil => simp [skipWsD] at h
        | cons c' cs' ih =>
          by_cases hc' : isWsRe c' = true
          · simp only [skipWsD, hc', if_true] at h
            exact ih h
          · simp [skipWsD, hc'] at h
      · simp [wsPlusM, hc]
  · intro s ext r h
    cases s with
    | nil => simp [wsPlusD] at h
    | cons c cs =>
      by_cases hc : isWsRe c = true
      · simp only [wsPlusD, hc, if_true] at h
        simp [wsPlusM, hc, skipWsD_ok h ext]
      · simp [wsPlusD, hc] at h

theorem dsound_blockOpen : DSound blockOpenD matchBlockOpen := by
  have h := dsound_seq (dsound_matchLit "\x7b%".data)
    (dsound_seq dsound_skipWs
      (dsound_seq (dsound_matchLit "block".data)
        (dsound_seq dsound_wsPlus
          (dsound_seq (dsound_matchLit "content".data)
            (dsound_seq dsound_skipWs (dsound_matchLit "%\x7d".data))))))
  constructor
  · intro s ext hf
    exact h.1 s ext hf
  · intro s ext r hf
    exact h.2 s ext r hf

theorem dsound_endblock : DSound endblockD matchEndblock := by
  have h := dsound_seq (dsound_matchLit "\x7b%".data)
    (dsound_seq dsound_skipWs
      (dsound_seq (dsound_matchLit "endblock".data)
        (dsound_seq dsound_skipWs (dsound_matchLit "%\x7d".data))))
  constructor
  · intro s ext hf
    exact h.1 s ext hf
  · intro s ext r hf
    exact h.2 s ext r hf

theorem findSplit_append_clean {α : Type} {m : List Char → Option α} {d : List Char → MRes}
    (hd : ∀ s ext, d s = .fail → m (s ++ ext) = none) :
    ∀ (l r : List Char), allSuffD d l = true →
      findSplit m (l ++ r) = (findSplit m r).map fun p => (l ++ p.1, p.2) := by
  intro l
  induction l with
  | nil =>
    intro r _
    simp only [List.nil_append]
    cases findSplit m r <;> simp
  | cons c l' ih =>
    intro r hclean
    simp only [allSuffD, Bool.and_eq_true, beq_iff_eq] at hclean
    have hm : m ((c :: l') ++ r) = none := hd (c :: l') r hclean.1
    simp only [List.cons_append] at hm ⊢
    rw [findSplit, hm, ih r hclean.2]
    cases findSplit m r <;> simp

theorem findSplit_join_clean {α : Type} {m : List Char → Option α} {d : List Char → MRes}
    (hd : ∀ s ext, d s = .fail → m (s ++ ext) = none) :
    ∀ (ls : List (List Char)) (r : List Char), (ls.all fun l => allSuffD d l) = true →
      findSplit m (ls.flatten ++ r) = (findSplit m r).map fun p => (ls.flatten ++ p.1, p.2) := by
  intro ls
  induction ls with
  | nil =>
    intro r _
    simp only [List.flatten_nil, List.nil_append]
    cases findSplit m r <;> simp
  | cons l ls' ih =>
    intro r hclean
    simp only [List.all_cons, Bool.and_eq_true] at hclean
    rw [List.flatten_cons, List.append_assoc,
      findSplit_append_clean hd l (ls'.flatten ++ r) hclean.1, ih r hclean.2]
    cases findSplit m r <;> simp [List.append_assoc]

theorem findSplit_head {α : Type} {m : List Char → Option α} {cs : List Char} {r : α}
    (h : m cs = some r) : findSplit m cs = some ([], r) := by
  cases cs with
  | nil => rw [findSplit, h]
  | cons c cs' => rw [findSplit, h]

theorem findSplit_none_forall {α : Type} {m : List Char → Option α} :
    ∀ {cs : List Char}, findSplit m cs = none → ∀ s, s <:+ cs → m s = none := by
  intro cs
  induction cs with
  | nil =>
    intro h s hs
    rw [List.suffix_nil.mp hs]
    rw [findSplit] at h
    cases hm : m [] with
    | none => rfl
    | some r => rw [hm] at h; exact absurd h (by simp)
  | cons c cs' ih =>
    intro h s hs
    rw [findSplit] at h
    cases hm : m (c :: cs') with
    | some r => rw [hm] at h; exact absurd h (by simp)
    | none =>
      rw [hm] at h
      have h' : findSplit m cs' = none := by
        cases hfs : findSplit m cs' with
        | none => rfl
        | some p => rw [hfs] at h; exact absurd h (by simp)
      rcases List.suffix_cons_iff.mp hs with h₁ | h₁
      · rw [h₁]; exact hm
      · exact ih h' s h₁

theorem skipWs_suffix : ∀ cs : List Char, skipWs cs <:+ cs := by
  intro cs
  induction cs with
  | nil => exact List.nil_suffix
  | cons c cs' ih =>
    rw [skipWs]
    by_cases hc : isWsRe c = true
    · simp only [hc, if_true]
      exact ih.trans (List.suffix_cons c cs')
    · simp only [Bool.not_eq_true] at hc
      simp [hc]

theorem matchLit_suffix {lit : List Char} :
    ∀ {cs r : List Char}, matchLit lit cs = some r → r <:+ cs := by
  induction lit with
  | nil =>
    intro cs r h
    simp only [matchLit, Option.some.injEq] at h
    rw [h]
  | cons l ls ih =>
    intro cs r h
    cases cs with
    | nil => simp [matchLit] at h
    | cons c cs' =>
      by_cases hc : (c == l) = true
      · simp only [matchLit, hc, if_true] at h
        exact (ih h).trans (List.suffix_cons c cs')
      · simp [matchLit, hc] at h

theorem attemptExtends_none {cs : List Char}
    (h : ∀ s, s <:+ cs → matchLit "extends".data s = none) :
    attemptExtends cs = none := by
  rw [attemptExtends]
  simp only [skipWsM, Option.some_bind]
  cases h₂ : matchLit "\x7b%".data (skipWs cs) with
  | none => rfl
  | some c₂ =>
    simp only [Option.some_bind]
    have hsfx : skipWs c₂ <:+ cs :=
      ((skipWs_suffix c₂).trans (matchLit_suffix h₂)).trans (skipWs_suffix cs)
    rw [h (skipWs c₂) hsfx]
    rfl

theorem stripScan_id : ∀ {cs : List Char},
    (∀ s, s <:+ cs → attemptExtends s = none) → ∀ b, stripScan b cs = cs := by
  intro cs
  induction cs with
  | nil => intro _ b; cases b <;> rfl
  | cons c cs' ih =>
    intro h b
    have hrest : ∀ s, s <:+ cs' → attemptExtends s = none := fun s hs =>
      h s (hs.trans (List.suffix_cons c cs'))
    cases b with
    | false => rw [stripScan, if_neg (by simp), ih hrest]
    | true =>
      rw [stripScan, if_pos rfl, h (c :: cs') List.suffix_rfl, ih hrest]

theorem data_mk (l : List Char) : (String.mk l).data = l := rfl

theorem mk_data (s : String) : String.mk s.data = s := rfl

theorem data_empty : ("" : String).data = [] := rfl

theorem blockAttempt_dfail : ∀ s ext, blockOpenD s = .fail → blockAttempt (s ++ ext) = none := by
  intro s ext h
  rw [blockAttempt, dsound_blockOpen.1 s ext h]
  rfl

theorem stripScan_id_of_findSplit {t : String}
    (h : findSplit (matchLit "extends".data) t.data = none) :
    stripScan true t.data = t.data :=
  stripScan_id (fun s hs => attemptExtends_none (fun s' hs' =>
    findSplit_none_forall h s' (hs'.trans hs))) true

theorem findSplit_cons_none {α : Type} {m : List Char → Option α} {c : Char} {cs : List Char}
    (h : m (c :: cs) = none) :
    findSplit m (c :: cs) = (findSplit m cs).map fun p => (c :: p.1, p.2) := by
  rw [findSplit, h]

theorem codeInner_eq_specInner_child (t : String) (body : List String)
    (hdata : t.data = ((childLines body).map String.data).flatten)
    (hext : ((childLines body).map String.data).all (allSuffD (matchLitD "extends".data)) = true)
    (heb : (body.map String.data).all (allSuffD endblockD) = true)
    (hebM : (body.map String.data).all (allSuffD (matchLitD endblockMarker.data)) = true) :
    codeInner t = specInner t := by
  have hflat : t.data = '\n' ::
      (blockContentLine.data ++ ((body.map String.data).flatten ++ endblockLine.data)) := by
    rw [hdata]
    simp [childLines, data_empty]
  -- the extends regex never matches, so the `re.sub` is the identity
  have hsplit_ext : findSplit (matchLit "extends".data) t.data = none := by
    have hjoin := findSplit_join_clean (fun s ext h => (dsound_matchLit "extends".data).1 s ext h)
      ((childLines body).map String.data) [] hext
    rw [List.append_nil] at hjoin
    rw [hdata, hjoin]
    rfl
  have hstrip : stripScan true t.data = t.data := stripScan_id_of_findSplit hsplit_ext
  -- determined outcomes at the marker lines
  have hbcD : blockOpenD blockContentLine.data = .ok ['\n'] := by decide
  have hebD : endblockD endblockLine.data = .ok ['\n'] := by decide
  have hbcM : matchLitD blockContentMarker.data blockContentLine.data = .ok ['\n'] := by decide
  have hebMv : matchLitD endblockMarker.data endblockLine.data = .ok ['\n'] := by decide
  -- the endblock scan of the lazy group stops at the endblock line
  have hup : findSplit matchEndblock
      ('\n' :: ((body.map String.data).flatten ++ endblockLine.data)) =
      some ('\n' :: (body.map String.data).flatten, ['\n']) := by
    have h1 := dsound_endblock.2 endblockLine.data [] ['\n'] hebD
    rw [List.append_nil, List.append_nil] at h1
    have h3 := findSplit_join_clean (fun s ext h => dsound_endblock.1 s ext h)
      (['\n'] :: body.map String.data) endblockLine.data (by
        simp only [List.all_cons, Bool.and_eq_true]
        exact ⟨by decide, heb⟩)
    rw [findSplit_head h1] at h3
    simpa using h3
  -- the block regex matches at the block-content line
  have hba : blockAttempt (blockContentLine.data ++
      ((body.map String.data).flatten ++ endblockLine.data)) =
      some ('\n' :: (body.map String.data).flatten) := by
    have h1 := dsound_blockOpen.2 blockContentLine.data
      ((body.map String.data).flatten ++ endblockLine.data) ['\n'] hbcD
    rw [blockAttempt, h1]
    simp only [List.singleton_append, Option.some_bind]
    rw [hup]
    rfl
  have hnostart : blockAttempt ('\n' :: (blockContentLine.data ++
      ((body.map String.data).flatten ++ endblockLine.data))) = none := by
    have := blockAttempt_dfail ['\n']
      (blockContentLine.data ++ ((body.map String.data).flatten ++ endblockLine.data)) (by decide)
    simpa using this
  have hsearch : searchBlockContent t.data =
      some ('\n' :: (body.map String.data).flatten) := by
    rw [searchBlockContent, hflat, findSplit_cons_none hnostart, findSplit_head hba]
    rfl
  have hcode : codeInner t = String.mk ('\n' :: (body.map String.data).flatten) := by
    rw [codeInner]
    simp only [stripExtends, hstrip, data_mk, hsearch]
  -- the spec-level extraction finds the same text
  have hspecno : matchLit blockContentMarker.data ('\n' :: (blockContentLine.data ++
      ((body.map String.data).flatten ++ endblockLine.data))) = none := by
    have := (dsound_matchLit blockContentMarker.data).1 ['\n']
      (blockContentLine.data ++ ((body.map String.data).flatten ++ endblockLine.data)) (by decide)
    simpa using this
  have hspec1 : findSplit (matchLit blockContentMarker.data) t.data =
      some (['\n'], '\n' :: ((body.map String.data).flatten ++ endblockLine.data)) := by
    have h1 := (dsound_matchLit blockContentMarker.data).2 blockContentLine.data
      ((body.map String.data).flatten ++ endblockLine.data) ['\n'] hbcM
    rw [List.singleton_append] at h1
    rw [hflat, findSplit_cons_none hspecno, findSplit_head h1]
    rfl
  have hspec2 : findSplit (matchLit endblockMarker.data)
      ('\n' :: ((body.map String.data).flatten ++ endblockLine.data)) =
      some ('\n' :: (body.map String.data).flatten, ['\n']) := by
    have h1 := (dsound_matchLit endblockMarker.data).2 endblockLine.data [] ['\n'] hebMv
    rw [List.append_nil, List.append_nil] at h1
    have h3 := findSplit_join_clean
      (fun s ext h => (dsound_matchLit endblockMarker.data).1 s ext h)
      (['\n'] :: body.map String.data) endblockLine.data (by
        simp only [List.all_cons, Bool.and_eq_true]
        exact ⟨by decide, hebM⟩)
    rw [findSplit_head h1] at h3
    simpa using h3
  have hspec : specInner t = String.mk ('\n' :: (body.map String.data).flatten) := by
    rw [specInner, hspec1]
    simp only [hspec2]
  rw [hcode, hspec]

theorem codeInner_eq_specInner_nomatch (t : String) (lines : List String)
    (hdata : t.data = (lines.map String.data).flatten)
    (hext : (lines.map String.data).all (allSuffD (matchLitD "extends".data)) = true)
    (hbo : (lines.map String.data).all (allSuffD blockOpenD) = true)
    (hbc : (lines.map String.data).all (allSuffD (matchLitD blockContentMarker.data)) = true)
    (hnotext : extendsMarker.data.isPrefixOf t.data = false) :
    codeInner t = t ∧ specInner t = t := by
  have hsplit_ext : findSplit (matchLit "extends".data) t.data = none := by
    have hjoin := findSplit_join_clean (fun s ext h => (dsound_matchLit "extends".data).1 s ext h)
      (lines.map String.data) [] hext
    rw [List.append_nil] at hjoin
    rw [hdata, hjoin]
    rfl
  have hstrip : stripScan true t.data = t.data := stripScan_id_of_findSplit hsplit_ext
  have hsearch : searchBlockContent t.data = none := by
    have hjoin := findSplit_join_clean blockAttempt_dfail (lines.map String.data) [] hbo
    rw [List.append_nil] at hjoin
    rw [searchBlockContent, hdata, hjoin]
    rfl
  have hbcnone : findSplit (matchLit blockContentMarker.data) t.data = none := by
    have hjoin := findSplit_join_clean
      (fun s ext h => (dsound_matchLit blockContentMarker.data).1 s ext h)
      (lines.map String.data) [] hbc
    rw [List.append_nil] at hjoin
    rw [hdata, hjoin]
    rfl
  constructor
  · rw [codeInner]
    simp only [stripExtends, hstrip, data_mk, hsearch, mk_data]
  · rw [specInner, hbcnone]
    simp [stripLeadingExtends, hnotext]

set_option maxRecDepth 100000 in
set_option maxHeartbeats 1000000 in
set_option maxRecDepth 40000 in
set_option maxHeartbeats 1000000 in
theorem joinLines_data (ls : List String) :
    (joinLines ls).data = (ls.map String.data).flatten := by
  induction ls with
  | nil => rfl
  | cons l ls ih =>
    simp only [joinLines, List.foldr_cons, List.map_cons, List.flatten_cons, String.data_append]
    rw [← ih]
    rfl

set_option maxRecDepth 8000 in
set_option maxHeartbeats 1000000 in
theorem inner_base : codeInner base_tpl = base_tpl ∧ specInner base_tpl = base_tpl :=
  codeInner_eq_specInner_nomatch base_tpl base_lines (joinLines_data base_lines)
    (by simp only [base_lines, List.map_append, List.all_append, Bool.and_eq_true]; exact ⟨⟨⟨by decide, by decide⟩, by decide⟩, by decide⟩)
    (by simp only [base_lines, List.map_append, List.all_append, Bool.and_eq_true]; exact ⟨⟨⟨by decide, by decide⟩, by decide⟩, by decide⟩)
    (by simp only [base_lines, List.map_append, List.all_append, Bool.and_eq_true]; exact ⟨⟨⟨by decide, by decide⟩, by decide⟩, by decide⟩)
    (by decide)

set_option maxRecDepth 8000 in
set_option maxHeartbeats 1000000 in
theorem inner_login : codeInner login_tpl = specInner login_tpl :=
  codeInner_eq_specInner_child login_tpl login_body (joinLines_data (childLines login_body))
    (by decide) (by decide) (by decide)

set_option maxRecDepth 8000 in
set_option maxHeartbeats 1000000 in
theorem inner_index : codeInner index_tpl = specInner index_tpl :=
  codeInner_eq_specInner_child index_tpl index_body (joinLines_data (childLines index_body))
    (by decide) (by decide) (by decide)

set_option maxRecDepth 8000 in
set_option maxHeartbeats 1000000 in
theorem inner_students : codeInner students_tpl = specInner students_tpl :=
  codeInner_eq_specInner_child students_tpl students_body (joinLines_data (childLines students_body))
    (by decide) (by decide) (by decide)

set_option maxRecDepth 8000 in
set_option maxHeartbeats 1000000 in
theorem inner_enroll : codeInner enroll_tpl = specInner enroll_tpl :=
  codeInner_eq_specInner_child enroll_tpl enroll_body (joinLines_data (childLines enroll_body))
    (by decide) (by decide) (by decide)

set_option maxRecDepth 8000 in
set_option maxHeartbeats 1000000 in
theorem inner_attendance : codeInner attendance_tpl = specInner attendance_tpl :=
  codeInner_eq_specInner_child attendance_tpl attendance_body (joinLines_data (childLines attendance_body))
    (by decide) (by decide) (by decide)

set_option maxRecDepth 8000 in
set_option maxHeartbeats 1000000 in
theorem inner_grades : codeInner grades_tpl = specInner grades_tpl :=
  codeInner_eq_specInner_child grades_tpl grades_body (joinLines_data (childLines grades_body))
    (by decide) (by decide) (by decide)

set_option maxRecDepth 8000 in
set_option maxHeartbeats 1000000 in
theorem inner_view_student : codeInner view_student_tpl = specInner view_student_tpl :=
  codeInner_eq_specInner_child view_student_tpl view_student_body (joinLines_data (childLines view_student_body))
    (by decide) (by decide) (by decide)

set_option maxRecDepth 8000 in
set_option maxHeartbeats 1000000 in
theorem inner_report : codeInner report_tpl = specInner report_tpl :=
  codeInner_eq_specInner_child report_tpl report_body (joinLines_data (childLines report_body))
    (by decide) (by decide) (by decide)

theorem lookup_mem {l : List (String × String)} {k : String} {v : String}
    (h : l.lookup k = some v) : (k, v) ∈ l := by
  induction l with
  | nil => simp [List.lookup] at h
  | cons e es ih =>
    cases e with
    | mk k' v' =>
      rw [List.lookup] at h
      by_cases hk : (k == k') = true
      · rw [hk] at h
        simp only [Option.some.injEq] at h
        rw [eq_of_beq hk, h]
        exact List.mem_cons_self _ _
      · simp only [Bool.not_eq_true] at hk
        rw [hk] at h
        exact List.mem_cons_of_mem _ (ih h)

/-- C1: For every template name registered in `template_env` and every context,
the school portal's `render` helper composes the page by taking the child
template's text between the first `{% block content %}` and the following
`{% endblock %}` (or the whole child, after stripping a leading extends tag, if
no such block exists), rendering that inner text with the given context first,
and then rendering the base layout with `child_content` bound to the rendered
child HTML. -/
theorem C1_render_composes {Ctx : Type} (rts : String → Ctx → String)
    (bindCtx : Ctx → String → String → Ctx) (name child : String) (ctx : Ctx)
    (h : template_env.lookup name = some child) :
    render rts bindCtx name ctx =
      some (rts base_tpl (bindCtx ctx "child_content" (rts (specInner child) ctx))) := by
  have hinner : codeInner child = specInner child := by
    have hm := lookup_mem h
    simp only [template_env, List.mem_cons, List.not_mem_nil, or_false, Prod.mk.injEq] at hm
    rcases hm with he | he | he | he | he | he | he | he | he
    · rw [he.2]; exact inner_base.1.trans inner_base.2.symm
    · rw [he.2]; exact inner_login
    · rw [he.2]; exact inner_index
    · rw [he.2]; exact inner_students
    · rw [he.2]; exact inner_enroll
    · rw [he.2]; exact inner_attendance
    · rw [he.2]; exact inner_grades
    · rw [he.2]; exact inner_view_student
    · rw [he.2]; exact inner_report
  rw [render, h]
  simp only [hinner]

/-- Witness for C1 at the registered name `login.html`, with the rendering
primitive instantiated to return the template text unchanged. -/
theorem C1_render_composes_witness :
    render (fun s _ => s) (fun c _ _ => c) "login.html" () = some base_tpl :=
  C1_render_composes (fun s _ => s) (fun c _ _ => c) "login.html" login_tpl () rfl

/-- C3: Every data route of the school portal — the dashboard, the student
list, enrollment, per-student view, attendance, grades, the CSV export, and
the report — carries `@login_required`, and a request from an unauthenticated
session is answered with a redirect to the login view, with the state
untouched and the view function never run (the dispatch result is the same
whatever the route's handler computes). -/
theorem C3_data_routes_require_login :
    ∀ r ∈ schoolRoutes, r.path ∈ dataRoutePaths →
      r.login_required = true ∧
      ∀ (st : SchoolState) (req : SchoolReq),
        dispatch r false st req = (.redirect "login", st) := by
  intro r hr _hp
  fin_cases hr <;>
    simp_all [dataRoutePaths, dispatch]

/-- Witness for C3 at the dashboard route with an empty database. -/
theorem C3_data_routes_require_login_witness :
    dispatch ⟨"/", true, indexHandler⟩ false emptySchoolState sampleSchoolReq =
      (.redirect "login", emptySchoolState) :=
  (C3_data_routes_require_login ⟨"/", true, indexHandler⟩ (List.mem_cons_self _ _)
    (List.mem_cons_self _ _)).2 emptySchoolState sampleSchoolReq

theorem filter_d_of_filter_ne {l : List AttRec} {d : PyDate} :
    (l.filter fun a => !decide (a.date = d)).filter (fun a => decide (a.date = d)) = [] := by
  rw [List.filter_filter]
  apply List.filter_eq_nil_iff.mpr
  intro a _
  by_cases h : a.date = d <;> simp [h]

/-- C4: A successful POST to the attendance route for date `d` leaves the
attendance table with exactly one record per currently enrolled student for
date `d` — with the status submitted in `status_<id>`, defaulting to
`'Absent'` — while every attendance record of a different date, and every
other table, is unchanged. -/
theorem C4_attendance_post (st : SchoolState) (req : SchoolReq) (d : PyDate)
    (hpost : req.method_post = true) (hdate : req.form_date = some d)
    (hids : (st.students.map (·.id)).Nodup) :
    (attendanceHandler st req).1 = .redirect "attendance" ∧
    (attendanceHandler st req).2.attendance.filter (fun a => decide (a.date = d)) =
      ((sortByRoll st.students).map fun s =>
        AttRec.mk d (getFormD req.form ("status_" ++ toString s.id) "Absent") s.id) ∧
    (∀ s ∈ st.students,
      ((attendanceHandler st req).2.attendance.filter
        (fun a => decide (a.date = d ∧ a.student_id = s.id))).length = 1) ∧
    (∀ a ∈ (attendanceHandler st req).2.attendance, a.date = d →
      a.student_id ∈ st.students.map (·.id)) ∧
    (attendanceHandler st req).2.attendance.filter (fun a => !decide (a.date = d)) =
      st.attendance.filter (fun a => !decide (a.date = d)) ∧
    (attendanceHandler st req).2.students = st.students ∧
    (attendanceHandler st req).2.users = st.users ∧
    (attendanceHandler st req).2.grades = st.grades := by
  have hstep : attendanceHandler st req = (.redirect "attendance",
      { st with attendance := (st.attendance.filter fun a => !decide (a.date = d)) ++
          ((sortByRoll st.students).map fun s =>
            AttRec.mk d (getFormD req.form ("status_" ++ toString s.id) "Absent") s.id) }) := by
    rw [attendanceHandler]
    simp [hpost, hdate]
  rw [hstep]
  refine ⟨rfl, ?_, ?_, ?_, ?_, rfl, rfl, rfl⟩
  · rw [List.filter_append, filter_d_of_filter_ne, List.nil_append]
    apply List.filter_eq_self.mpr
    intro a ha
    rcases List.mem_map.mp ha with ⟨s, _, rfl⟩
    simp
  · intro s hs
    rw [List.filter_append]
    have h1 : ((st.attendance.filter fun a => !decide (a.date = d)).filter
        fun a => decide (a.date = d ∧ a.student_id = s.id)) = [] := by
      rw [List.filter_filter]
      apply List.filter_eq_nil_iff.mpr
      intro a _
      by_cases h : a.date = d <;> simp [h]
    rw [h1, List.nil_append, ← List.countP_eq_length_filter, List.countP_map]
    have h2 : ((sortByRoll st.students).countP
        ((fun a => decide (a.date = d ∧ a.student_id = s.id)) ∘ fun s' =>
          AttRec.mk d (getFormD req.form ("status_" ++ toString s'.id) "Absent") s'.id)) =
        (sortByRoll st.students).countP fun s' => decide (s'.id = s.id) := by
      apply List.countP_congr
      intro s' _
      simp
    have hperm : (sortByRoll st.students).Perm st.students := List.mergeSort_perm _ _
    rw [h2, hperm.countP_eq]
    have h3 : (st.students.countP fun s' => decide (s'.id = s.id)) =
        (st.students.map (·.id)).count s.id := by
      rw [List.count, List.countP_map]
      apply List.countP_congr
      intro s' _
      simp
    rw [h3]
    exact List.count_eq_one_of_mem hids (List.mem_map_of_mem _ hs)
  · intro a ha hd
    rcases List.mem_append.mp ha with h | h
    · have := List.of_mem_filter h
      simp [hd] at this
    · rcases List.mem_map.mp h with ⟨s, hs, rfl⟩
      have hperm : (sortByRoll st.students).Perm st.students := List.mergeSort_perm _ _
      exact List.mem_map_of_mem _ (hperm.mem_iff.mp hs)
  · rw [List.filter_append]
    have h1 : ((st.attendance.filter fun a => !decide (a.date = d)).filter
        fun a => !decide (a.date = d)) = st.attendance.filter fun a => !decide (a.date = d) := by
      rw [List.filter_filter]
      apply List.filter_congr
      intro a _
      exact Bool.and_self _
    have h2 : (((sortByRoll st.students).map fun s =>
        AttRec.mk d (getFormD req.form ("status_" ++ toString s.id) "Absent") s.id).filter
        fun a => !decide (a.date = d)) = [] := by
      apply List.filter_eq_nil_iff.mpr
      intro a ha
      rcases List.mem_map.mp ha with ⟨s, _, rfl⟩
      simp
    rw [h1, h2, List.append_nil]

/-- Witness for C4: one enrolled student, attendance POSTed for date 7 with
`status_1 = Present`; the prior records for dates 5 and 7 behave as claimed. -/
theorem C4_attendance_post_witness :
    (c4State.students.map (·.id)).Nodup ∧
    (attendanceHandler c4State c4Req).2.attendance.filter (fun a => decide (a.date = 7)) =
      ((sortByRoll c4State.students).map fun s =>
        AttRec.mk 7 (getFormD c4Req.form ("status_" ++ toString s.id) "Absent") s.id) :=
  ⟨by decide, (C4_attendance_post c4State c4Req 7 rfl rfl (by decide)).2.1⟩

/-- C6 counterexample: the portal already has a student with roll `"R1"`;
the form submits roll `" R1 "` (fresh: no student's roll equals it) with valid
fields, yet no student is created — the duplicate check compares the submitted
value verbatim, the insert stores it stripped, and the commit violates the
UNIQUE constraint, so the claim's "fresh roll number ⟹ creates exactly one
new Student" fails. -/
theorem C6_enroll_counterexample :
    c6Req.enrollForm = some c6FreshForm ∧
    (∀ s ∈ c6State.students, s.roll_no ≠ c6FreshForm.roll_no) ∧
    enrollHandler c6State c6Req = (.dbError, c6State) ∧
    (enrollHandler c6State c6Req).2.students = c6State.students := by
  refine ⟨rfl, by decide, by decide, by decide⟩

/-- C6 (amended): with a validated form, a submitted roll number equal to an
existing student's roll leaves the table unchanged with a warning flash and a
re-rendered form; a submitted roll number that is fresh, and whose stripped
value is also fresh, creates exactly one new student with the stripped roll
number and name. -/
theorem C6_enroll (st : SchoolState) (req : SchoolReq) (f : EnrollData)
    (hform : req.enrollForm = some f) :
    ((∃ s ∈ st.students, s.roll_no = f.roll_no) →
      enrollHandler st req = (.enrollPage [("Roll Number already exists.", "warning")], st)) ∧
    ((∀ s ∈ st.students, s.roll_no ≠ f.roll_no) →
      (∀ s ∈ st.students, s.roll_no ≠ pyStrip f.roll_no) →
      enrollHandler st req = (.redirect "students",
        { st with students := st.students ++
            [{ id := nextId (st.students.map (·.id)), roll_no := pyStrip f.roll_no,
               name := pyStrip f.name, email := f.email, class_name := f.class_name,
               extra := f.extra }] })) := by
  constructor
  · rintro ⟨s, hs, he⟩
    have hany : (st.students.any fun s => s.roll_no == f.roll_no) = true :=
      List.any_eq_true.mpr ⟨s, hs, by simp [he]⟩
    rw [enrollHandler, hform]
    simp [hany]
  · intro h1 h2
    have hany1 : (st.students.any fun s => s.roll_no == f.roll_no) = false := by
      apply List.any_eq_false.mpr
      intro s hs
      simp [h1 s hs]
    have hany2 : (st.students.any fun s => s.roll_no == pyStrip f.roll_no) = false := by
      apply List.any_eq_false.mpr
      intro s hs
      simp [h2 s hs]
    rw [enrollHandler, hform]
    simp [hany1, hany2]

/-- Witness for C6 (amended), duplicate branch: submitting the existing roll
`"R1"` flashes the warning and leaves the table unchanged. -/
theorem C6_enroll_witness :
    enrollHandler c6State c6DupReq =
      (.enrollPage [("Roll Number already exists.", "warning")], c6State) :=
  (C6_enroll c6State c6DupReq ⟨"R1", "Bob", "", "", ""⟩ rfl).1
    ⟨sampleStudent, by decide, by decide⟩

theorem setAdminHash_mem :
    ∀ (us : List SUser) (h : String), (us.find? fun u => u.username == "admin").isSome →
      ∃ u ∈ setAdminHash us h, u.username = "admin" ∧ u.password_hash = h := by
  intro us h hf
  induction us with
  | nil => simp [List.find?] at hf
  | cons u us ih =>
    by_cases hu : (u.username == "admin") = true
    · refine ⟨{ u with password_hash := h }, ?_, by simpa using hu, rfl⟩
      rw [setAdminHash, if_pos hu]
      exact List.mem_cons_self _ _
    · rw [List.find?] at hf
      simp only [Bool.not_eq_true] at hu
      rw [hu] at hf
      rcases ih hf with ⟨v, hv, hva, hvh⟩
      refine ⟨v, ?_, hva, hvh⟩
      rw [setAdminHash, if_neg (by simp [hu])]
      exact List.mem_cons_of_mem _ hv

/-- C9: `/init-admin` performs no authentication check: outside debug mode
every request gets status 403 and no state change; in debug mode any client —
authenticated or not, the session plays no role — that POSTs a non-empty
password (form field or JSON body) gets the `admin` user created if missing,
that user's password hash set to the hash of the submitted value, and the
password echoed back with status 200; a POST with no (or an empty) password
gets status 400 and changes nothing. -/
theorem C9_init_admin (st : SchoolState) (formPw jsonPw : Option String)
    (gph : String → String) :
    (∀ a m, initAdmin false a m formPw jsonPw gph st = ((403, "Not allowed"), st)) ∧
    (∀ debug a₁ a₂ m, initAdmin debug a₁ m formPw jsonPw gph st =
        initAdmin debug a₂ m formPw jsonPw gph st) ∧
    (pyOr formPw jsonPw = none → ∀ a,
      initAdmin true a true formPw jsonPw gph st = ((400, "Provide password"), st)) ∧
    (∀ pw a, pyOr formPw jsonPw = some pw →
      (initAdmin true a true formPw jsonPw gph st).1 =
        (200, "Admin password set to: <strong>" ++ pw ++ "</strong> (use admin / " ++ pw ++ ")") ∧
      (∃ u ∈ (initAdmin true a true formPw jsonPw gph st).2.users,
        u.username = "admin" ∧ u.password_hash = gph pw) ∧
      ((∀ u ∈ st.users, u.username ≠ "admin") →
        (initAdmin true a true formPw jsonPw gph st).2.users = st.users ++
          [{ id := nextId (st.users.map (·.id)), username := "admin",
             password_hash := gph pw, role := "admin" }]) ∧
      (initAdmin true a true formPw jsonPw gph st).2.students = st.students ∧
      (initAdmin true a true formPw jsonPw gph st).2.attendance = st.attendance) := by
  refine ⟨fun a m => rfl, fun debug a₁ a₂ m => rfl, ?_, ?_⟩
  · intro h a
    rw [initAdmin]
    simp [h]
  · intro pw a h
    have hred : initAdmin true a true formPw jsonPw gph st =
        ((200, "Admin password set to: <strong>" ++ pw ++ "</strong> (use admin / " ++ pw ++ ")"),
         { st with users :=
            match st.users.find? (fun u => u.username == "admin") with
            | some _ => setAdminHash st.users (gph pw)
            | none => st.users ++ [{ id := nextId (st.users.map (·.id)), username := "admin", password_hash := gph pw, role := "admin" }] }) := by
      rw [initAdmin]
      simp [h]
    rw [hred]
    cases hf : st.users.find? fun u => u.username == "admin" with
    | some u =>
      refine ⟨rfl, ?_, ?_, rfl, rfl⟩
      · simpa using setAdminHash_mem st.users (gph pw) (by simp [hf])
      · intro hnone
        have hcontra : (st.users.find? fun u => u.username == "admin") = none := by
          apply List.find?_eq_none.mpr
          intro v hv
          simp [hnone v hv]
        rw [hf] at hcontra
        exact absurd hcontra (by simp)
    | none =>
      refine ⟨rfl, ?_, fun _ => rfl, rfl, rfl⟩
      exact ⟨_, List.mem_append_right _ (List.mem_cons_self _ _), rfl, rfl⟩

/-- Witness for C9: debug mode, unauthenticated client, form password `pw1`,
on a database that already has an `admin` user. -/
theorem C9_init_admin_witness :
    pyOr (some "pw1") none = some "pw1" ∧
    (initAdmin true false true (some "pw1") none (fun p => "h:" ++ p) c9State).1 =
      (200, "Admin password set to: <strong>pw1</strong> (use admin / pw1)") :=
  ⟨rfl, ((C9_init_admin c9State (some "pw1") none (fun p => "h:" ++ p)).2.2.2
    "pw1" false rfl).1⟩

theorem tryDrops_iff (m : List Char → Bool) :
    ∀ s : List Char, (tryDrops m s = true ↔ ∃ t, t <:+ s ∧ m t = true) := by
  intro s
  induction s with
  | nil =>
    rw [tryDrops]
    simp [List.suffix_nil]
  | cons c s' ih =>
    rw [tryDrops]
    simp only [Bool.or_eq_true]
    rw [ih]
    constructor
    · rintro (h | ⟨t, hts, hm⟩)
      · exact ⟨c :: s', List.suffix_rfl, h⟩
      · exact ⟨t, hts.trans (List.suffix_cons c s'), hm⟩
    · rintro ⟨t, hts, hm⟩
      rcases List.suffix_cons_iff.mp hts with rfl | hts'
      · exact Or.inl hm
      · exact Or.inr ⟨t, hts', hm⟩

theorem likeMatch_percent_any : ∀ s : List Char, likeMatch ['%'] s = true := by
  intro s
  show tryDrops (likeMatch []) s = true
  rw [tryDrops_iff]
  exact ⟨[], List.nil_suffix, rfl⟩

theorem likeMatch_lit : ∀ (p s : List Char), (∀ c ∈ p, c ≠ '%' ∧ c ≠ '_') →
    (likeMatch p s = true ↔ p.map Char.toLower = s.map Char.toLower) := by
  intro p
  induction p with
  | nil =>
    intro s _
    cases s <;> simp [likeMatch]
  | cons pc pcs ih =>
    intro s hw
    have hpc := hw pc (List.mem_cons_self _ _)
    cases s with
    | nil =>
      rw [likeMatch]
      simp [hpc.1]
    | cons c s' =>
      rw [likeMatch]
      rw [if_neg hpc.1]
      simp only [if_neg hpc.2]
      rw [Bool.and_eq_true, beq_iff_eq]
      rw [ih s' (fun c hc => hw c (List.mem_cons_of_mem _ hc))]
      simp

theorem likeMatch_lit_percent : ∀ (p s : List Char), (∀ c ∈ p, c ≠ '%' ∧ c ≠ '_') →
    (likeMatch (p ++ ['%']) s = true ↔ p.map Char.toLower <+: s.map Char.toLower) := by
  intro p
  induction p with
  | nil =>
    intro s _
    simp [likeMatch_percent_any]
  | cons pc pcs ih =>
    intro s hw
    have hpc := hw pc (List.mem_cons_self _ _)
    cases s with
    | nil =>
      rw [List.cons_append, likeMatch]
      simp [hpc.1]
    | cons c s' =>
      rw [List.cons_append, likeMatch]
      rw [if_neg hpc.1]
      simp only [if_neg hpc.2]
      rw [Bool.and_eq_true, beq_iff_eq]
      rw [ih s' (fun c hc => hw c (List.mem_cons_of_mem _ hc))]
      simp [List.cons_prefix_cons]

theorem likeMatch_leading_percent : ∀ (p s : List Char),
    (likeMatch ('%' :: p) s = true ↔ ∃ t, t <:+ s ∧ likeMatch p t = true) := by
  intro p s
  show tryDrops (likeMatch p) s = true ↔ _
  exact tryDrops_iff _ s

theorem suffix_map_iff (f : Char → Char) (s : List Char) (t' : List Char) :
    t' <:+ s.map f ↔ ∃ t, t <:+ s ∧ t' = t.map f := by
  constructor
  · intro h
    rcases List.suffix_iff_eq_drop.mp h with heq
    exact ⟨s.drop ((s.map f).length - t'.length), List.drop_suffix _ _,
      by rw [List.map_drop]; exact heq⟩
  · rintro ⟨t, hts, rfl⟩
    exact List.IsSuffix.map f hts

theorem sqlIlike_substring (q s : String) (hw : ∀ c ∈ q.data, c ≠ '%' ∧ c ≠ '_') :
    (sqlIlike ("%" ++ q ++ "%") s = true ↔ containsCI q s) := by
  have hdata : ("%" ++ q ++ "%").data = '%' :: (q.data ++ ['%']) := by
    simp [String.data_append]
  rw [sqlIlike, hdata, likeMatch_leading_percent]
  constructor
  · rintro ⟨t, hts, hm⟩
    have hp := (likeMatch_lit_percent q.data t hw).mp hm
    rw [containsCI, List.infix_iff_prefix_suffix]
    exact ⟨t.map Char.toLower, hp, List.IsSuffix.map _ hts⟩
  · intro hinf
    rw [containsCI, List.infix_iff_prefix_suffix] at hinf
    rcases hinf with ⟨t', hpre, hsuf⟩
    rcases (suffix_map_iff Char.toLower s.data t').mp hsuf with ⟨t, hts, rfl⟩
    exact ⟨t, hts, (likeMatch_lit_percent q.data t hw).mpr hpre⟩

theorem bool_eq_decide (b : Bool) (P : Prop) [Decidable P] (h : b = true ↔ P) :
    b = decide P := by
  by_cases hp : P
  · simp [hp, h.mpr hp]
  · have hb : b ≠ true := fun hb => hp (h.mp hb)
    simp only [Bool.not_eq_true] at hb
    simp [hb, hp]

/-- C5 counterexample: for the query `"%"` the handler's ILIKE pattern `%%%`
matches everything, so the student "Ann" (roll "R1") is returned even though
neither her name nor her roll number contains `"%"` — the claim's
"exactly the students whose name or roll number contains q" fails. -/
theorem C5_students_search_counterexample :
    c5Req.args_q = some "%" ∧
    (studentsHandler c6State c5Req).1 = .studentsPage "%" [sampleStudent] ∧
    ¬ containsCI "%" sampleStudent.name ∧ ¬ containsCI "%" sampleStudent.roll_no := by
  refine ⟨rfl, by decide, by decide, by decide⟩

/-- C5 (amended): for a query `q` containing neither `%` nor `_`, the student
list with non-empty `q` returns exactly the students (in table order) whose
name or roll number contains `q` case-insensitively; with an empty or absent
`q` it returns all students ordered by roll number. -/
theorem C5_students_search (st : SchoolState) (req : SchoolReq)
    (hw : ∀ c ∈ (req.args_q.getD "").data, c ≠ '%' ∧ c ≠ '_') :
    (req.args_q.getD "" ≠ "" →
      studentsHandler st req = (.studentsPage (req.args_q.getD "")
        (st.students.filter fun s => decide (containsCI (req.args_q.getD "") s.name) ||
          decide (containsCI (req.args_q.getD "") s.roll_no)), st)) ∧
    (req.args_q.getD "" = "" →
      studentsHandler st req = (.studentsPage (req.args_q.getD "") (sortByRoll st.students), st) ∧
      (sortByRoll st.students).Perm st.students ∧
      List.Sorted (fun a b : Student => a.roll_no ≤ b.roll_no) (sortByRoll st.students)) := by
  constructor
  · intro hne
    have hfilter : (st.students.filter fun s =>
        sqlIlike ("%" ++ req.args_q.getD "" ++ "%") s.name ||
        sqlIlike ("%" ++ req.args_q.getD "" ++ "%") s.roll_no) =
        st.students.filter fun s => decide (containsCI (req.args_q.getD "") s.name) ||
          decide (containsCI (req.args_q.getD "") s.roll_no) := by
      apply List.filter_congr
      intro s _
      rw [bool_eq_decide _ _ (sqlIlike_substring (req.args_q.getD "") s.name hw),
        bool_eq_decide _ _ (sqlIlike_substring (req.args_q.getD "") s.roll_no hw)]
    rw [studentsHandler]
    simp only [if_pos hne, hfilter]
  · intro he
    refine ⟨?_, List.mergeSort_perm _ _, ?_⟩
    · rw [studentsHandler]
      rw [if_neg (fun hcon => hcon he)]
    · have hs : List.Pairwise
          (fun a b : Student => (decide (a.roll_no ≤ b.roll_no)) = true)
          (sortByRoll st.students) :=
        List.sorted_mergeSort
          (fun a b c hab hbc => by
            simp only [decide_eq_true_eq] at hab hbc ⊢
            exact le_trans hab hbc)
          (fun a b => by
            rcases le_total a.roll_no b.roll_no with h | h <;> simp [h])
          st.students
      exact hs.imp (fun h => by simpa using h)

/-- Witness for C5 (amended): searching for `"r1"` in a one-student table
finds the student by roll number, case-insensitively. -/
theorem C5_students_search_witness :
    studentsHandler c6State { c5Req with args_q := some "r1" } =
      (.studentsPage "r1" [sampleStudent], c6State) := by
  have h := (C5_students_search c6State { c5Req with args_q := some "r1" }
    (by decide)).1 (by decide)
  rw [h]
  decide

theorem pages_flatten (per : Nat) (hper : 0 < per) :
    ∀ l : List Patient, (allPages l per).flatten = l := by
  have main : ∀ n (l : List Patient), l.length = n → (allPages l per).flatten = l := by
    intro n
    induction n using Nat.strong_induction_on with
    | _ n ih =>
      intro l hlen
      by_cases h0 : l.length = 0
      · have hl : l = [] := List.length_eq_zero.mp h0
        subst hl
        have hnp : numPages ([] : List Patient).length per = 1 := by
          show (max 1 0 + per - 1) / per = 1
          have h1 : max 1 0 + per - 1 = per := by omega
          rw [h1, Nat.div_self hper]
        rw [allPages, hnp]
        simp [pageSlice]
      · by_cases hle : l.length ≤ per
        · have hnp : numPages l.length per = 1 := by
            rw [numPages]
            have h1 : max 1 l.length + per - 1 = l.length + per - 1 := by omega
            rw [h1]
            exact Nat.div_eq_of_lt_le (by omega) (by omega)
          rw [allPages, hnp]
          show ([(l.drop ((1 - 1) * per)).take per]).flatten = l
          simp [List.take_of_length_le hle]
        · have hgt : per < l.length := by omega
          have hm : numPages l.length per = numPages (l.drop per).length per + 1 := by
            rw [numPages, numPages, List.length_drop]
            have h1 : max 1 l.length + per - 1 = (l.length - 1 - per) + per + per := by omega
            have h2 : max 1 (l.length - per) + per - 1 = (l.length - 1 - per) + per := by omega
            rw [h1, h2, Nat.add_div_right _ hper, Nat.add_div_right _ hper]
          have hrec : allPages l per = (l.take per) :: allPages (l.drop per) per := by
            rw [allPages, hm, List.range_succ_eq_map, List.map_cons, List.map_map]
            congr 1
            · show (l.drop ((1 - 1) * per)).take per = l.take per
              simp
            · rw [allPages]
              apply List.map_congr_left
              intro i _
              show (l.drop ((i + 1 + 1 - 1) * per)).take per =
                ((l.drop per).drop ((i + 1 - 1) * per)).take per
              rw [List.drop_drop]
              have h4 : i + 1 + 1 - 1 = i + 1 := rfl
              have h5 : i + 1 - 1 = i := rfl
              rw [h4, h5, Nat.succ_mul, Nat.add_comm]
          rw [hrec, List.flatten_cons,
            ih (l.drop per).length (by rw [List.length_drop]; omega) (l.drop per) rfl,
            List.take_append_drop]
  intro l
  exact main l.length l rfl

/-- C7: the patient export applies exactly the same search filter as the
patient list page: the rows exported for a query are precisely the patients
the list view displays for the same query, in the same id order, across all
its pages. -/
theorem C7_export_matches_list (rawq : Option String) (st : HospState) (per : Nat)
    (hper : 0 < per) :
    export_patients_rows rawq st = patients_list_patients rawq st ∧
    (allPages (patients_list_patients rawq st) per).flatten = export_patients_rows rawq st := by
  refine ⟨rfl, ?_⟩
  rw [pages_flatten per hper]
  rfl

/-- Witness for C7 at a two-patient database with query `"ali"` and the
default page size 10. -/
theorem C7_export_matches_list_witness :
    (0 : Nat) < 10 ∧
    export_patients_rows (some "ali") ⟨[⟨1, "Alice", "Brown", 30, "Checkup"⟩,
      ⟨2, "Bob", "Green", 45, "Diabetes"⟩], [], []⟩ 
      = patients_list_patients (some "ali") ⟨[⟨1, "Alice", "Brown", 30, "Checkup"⟩,
      ⟨2, "Bob", "Green", 45, "Diabetes"⟩], [], []⟩ :=
  ⟨by decide, (C7_export_matches_list (some "ali") ⟨[⟨1, "Alice", "Brown", 30, "Checkup"⟩,
      ⟨2, "Bob", "Green", 45, "Diabetes"⟩], [], []⟩ 10 (by decide)).1⟩

theorem one_le_numPages (c per : Nat) (hper : 0 < per) : 1 ≤ numPages c per := by
  rw [numPages, Nat.le_div_iff_mul_le hper]
  simp only [Nat.max_def]
  split_ifs <;> omega

theorem range_window_mem (a b k : Nat) :
    k ∈ List.range' (max 1 (a - 3)) (min b (a + 3) + 1 - max 1 (a - 3)) ↔
      max 1 (a - 3) ≤ k ∧ k ≤ min b (a + 3) := by
  simp only [List.mem_range']
  constructor
  · rintro ⟨i, hi, rfl⟩
    revert hi
    simp only [Nat.max_def, Nat.min_def]
    split_ifs <;> (intro hi; omega)
  · intro h
    refine ⟨k - max 1 (a - 3), ?_, by omega⟩
    revert h
    simp only [Nat.max_def, Nat.min_def]
    split_ifs <;> (intro h; omega)

theorem range'_chain_succ (n s : Nat) :
    (List.range' s n).Chain' (fun a b => b = a + 1) := by
  rw [List.chain'_iff_get]
  intro i h
  simp only [List.get_eq_getElem, List.getElem_range'_1]
  omega

/-- C8: pagination of the hospital patient list. A `page` parameter that
`int()` rejects serves page 1; an integer above the number of pages serves
the last page; and the rendered page navigation holds exactly the page
numbers from `max 1 (current - 3)` to `min total (current + 3)`, listed
consecutively in increasing order. -/
theorem C8_pagination (rawq : Option String) (per : Nat) (hper : 0 < per)
    (st : HospState) :
    (∀ s : String, parsePyInt s = none →
      (patients_list_response rawq (some s) per st).2.1 = 1) ∧
    (∀ (s : String) (n : Int), parsePyInt s = some n →
      ((numPages (patients_list_patients rawq st).length per : Int) < n) →
      (patients_list_response rawq (some s) per st).2.1
        = numPages (patients_list_patients rawq st).length per) ∧
    (∀ (pageParam : Option String) (k : Nat),
      k ∈ (patients_list_response rawq pageParam per st).2.2 ↔
        (max 1 ((patients_list_response rawq pageParam per st).2.1 - 3) ≤ k ∧
         k ≤ min (numPages (patients_list_patients rawq st).length per)
               ((patients_list_response rawq pageParam per st).2.1 + 3))) ∧
    (∀ pageParam : Option String,
      ((patients_list_response rawq pageParam per st).2.2).Chain'
        (fun a b => b = a + 1)) := by
  have h1 : 1 ≤ numPages (patients_list_patients rawq st).length per :=
    one_le_numPages _ per hper
  refine ⟨?_, ?_, ?_, ?_⟩
  · intro s hs
    show servedPage (some s) (numPages (patients_list_patients rawq st).length per) = 1
    simp only [servedPage]
    by_cases he : s = ""
    · subst he
      simp only [if_pos rfl]
      show (if (1 : Int) < 1 then _ else if (1 : Int) > _ then _ else Int.toNat 1) = 1
      split_ifs <;> omega
    · rw [if_neg he, hs]
  · intro s n hs hn
    show servedPage (some s) (numPages (patients_list_patients rawq st).length per)
      = numPages (patients_list_patients rawq st).length per
    simp only [servedPage]
    have he : s ≠ "" := by
      rintro rfl
      rw [show parsePyInt "" = none from rfl] at hs
      exact Option.noConfusion hs
    rw [if_neg he, hs]
    show (if n < 1 then numPages (patients_list_patients rawq st).length per
      else if n > (numPages (patients_list_patients rawq st).length per : Int) then
        numPages (patients_list_patients rawq st).length per
      else n.toNat) = numPages (patients_list_patients rawq st).length per
    split_ifs <;> omega
  · intro pageParam k
    exact range_window_mem
      (servedPage pageParam (numPages (patients_list_patients rawq st).length per))
      (numPages (patients_list_patients rawq st).length per) k
  · intro pageParam
    exact range'_chain_succ _ _

/-- Witness for C8 at a one-patient database, page size 10 and the
non-integer page parameter `"abc"`. -/
theorem C8_pagination_witness :
    (0 : Nat) < 10 ∧ parsePyInt "abc" = none ∧
    (patients_list_response none (some "abc") 10
      ⟨[⟨1, "Alice", "Brown", 30, "Checkup"⟩], [], []⟩).2.1 = 1 :=
  ⟨by decide, by decide,
    (C8_pagination none 10 (by decide)
      ⟨[⟨1, "Alice", "Brown", 30, "Checkup"⟩], [], []⟩).1 "abc" (by decide)⟩

theorem applyUpdates_id :
    ∀ (data : List (String × JVal)) (p p' : PendingPatient),
      applyUpdates p data = some p' → p'.id = p.id := by
  intro data
  induction data with
  | nil =>
    intro p p' h
    simp only [applyUpdates, Option.some.injEq] at h
    subst h; rfl
  | cons kv rest ih =>
    intro p p' h
    obtain ⟨k, v⟩ := kv
    by_cases h1 : k = "age"
    · simp only [applyUpdates, if_pos h1] at h
      cases hv : (if v = JVal.jstr "" then some 0 else pyIntOfJVal v) with
      | none => rw [hv] at h; exact absurd h (by simp)
      | some n => rw [hv] at h; exact ih { p with age := n } p' h
    · simp only [applyUpdates, if_neg h1] at h
      split_ifs at h with h2 h3 h4
      · exact ih { p with first_name := pyCharOfJVal v } p' h
      · exact ih { p with last_name := pyCharOfJVal v } p' h
      · exact ih { p with condition := pyCharOfJVal v } p' h
      · exact ih p p' h

theorem savePending_id (q : PendingPatient) (p' : Patient)
    (h : savePending q = some p') : p'.id = q.id := by
  rw [savePending] at h
  cases hf : q.first_name <;> cases hl : q.last_name <;> cases hc : q.condition <;>
    rw [hf, hl, hc] at h
  all_goals first
    | (simp only [Option.some.injEq] at h; subst h; rfl)
    | simp at h

theorem applyUpdates_skip (p : PendingPatient) (k : String) (v : JVal)
    (rest : List (String × JVal))
    (hk : k ∉ ["age", "first_name", "last_name", "condition"]) :
    applyUpdates p ((k, v) :: rest) = applyUpdates p rest := by
  simp only [List.mem_cons, List.mem_singleton, not_or] at hk
  obtain ⟨h1, h2, h3, h4, _⟩ := hk
  simp only [applyUpdates, if_neg h1, if_neg h2, if_neg h3, if_neg h4]

/-- C10 counterexample: a payload whose `age` value is the JSON float `5.5` —
neither empty nor an integer — is not rejected with a 400: `int(5.5)`
truncates, the row is saved with age 5 and the endpoint answers 200. -/
theorem C10_ajax_update_counterexample :
    patients_ajax_update true
      (some (.jint 1, [("age", .jfloat 55 1)]))
      ⟨[⟨1, "Alice", "Brown", 30, "Checkup"⟩], [], []⟩
    = (200, ⟨[⟨1, "Alice", "Brown", 5, "Checkup"⟩], [], []⟩) := by decide

/-- C10 (amended): the AJAX patient update touches only the four allowed
fields of the single row named by the payload id (payload keys outside the
set are ignored, every other row is untouched, the row's id is kept); an
`age` value that is neither empty nor accepted by `int()` yields 400 with
the database unchanged, before any save; a non-POST request yields 405 and
any other failure — a bad body, id or lookup, or a `save()` rejected because
a char field was left `None` — yields 500, in all cases leaving state
unchanged. -/
theorem C10_ajax_update (st : HospState)
    (payload : Option (JVal × List (String × JVal))) :
    (patients_ajax_update false payload st = (405, st)) ∧
    (patients_ajax_update true none st = (500, st)) ∧
    (∀ idv data, pyIntOfJVal idv = none →
      patients_ajax_update true (some (idv, data)) st = (500, st)) ∧
    (∀ idv data pid, pyIntOfJVal idv = some pid →
      st.patients.find? (fun p => ((p.id : Int) == pid)) = none →
      patients_ajax_update true (some (idv, data)) st = (500, st)) ∧
    (∀ idv data pid p, pyIntOfJVal idv = some pid →
      st.patients.find? (fun p => ((p.id : Int) == pid)) = some p →
      applyUpdates (pendingOf p) data = none →
      patients_ajax_update true (some (idv, data)) st = (400, st)) ∧
    (∀ idv data pid p q, pyIntOfJVal idv = some pid →
      st.patients.find? (fun p => ((p.id : Int) == pid)) = some p →
      applyUpdates (pendingOf p) data = some q →
      savePending q = none →
      patients_ajax_update true (some (idv, data)) st = (500, st)) ∧
    (∀ idv data pid p q p', pyIntOfJVal idv = some pid →
      st.patients.find? (fun p => ((p.id : Int) == pid)) = some p →
      applyUpdates (pendingOf p) data = some q →
      savePending q = some p' →
      patients_ajax_update true (some (idv, data)) st
          = (200, { st with patients := updateById st.patients p.id p' }) ∧
        p'.id = p.id ∧
        (updateById st.patients p.id p').length = st.patients.length ∧
        (∀ x ∈ st.patients, x.id ≠ p.id → x ∈ updateById st.patients p.id p') ∧
        (∀ x ∈ updateById st.patients p.id p', x.id ≠ p.id → x ∈ st.patients)) ∧
    (∀ (p : PendingPatient) (k : String) (v : JVal) (rest : List (String × JVal)),
      k ∉ ["age", "first_name", "last_name", "condition"] →
      applyUpdates p ((k, v) :: rest) = applyUpdates p rest) := by
  refine ⟨rfl, rfl, ?_, ?_, ?_, ?_, ?_, ?_⟩
  · intro idv data hid
    simp only [patients_ajax_update, Bool.not_true, hid]
    rfl
  · intro idv data pid hid hfind
    simp only [patients_ajax_update, Bool.not_true, hid, hfind]
    rfl
  · intro idv data pid p hid hfind happ
    simp only [patients_ajax_update, Bool.not_true, hid, hfind, happ]
    rfl
  · intro idv data pid p q hid hfind happ hsave
    simp only [patients_ajax_update, Bool.not_true, hid, hfind, happ, hsave]
    rfl
  · intro idv data pid p q p' hid hfind happ hsave
    have hqid : p'.id = p.id :=
      (savePending_id q p' hsave).trans (applyUpdates_id data (pendingOf p) q happ)
    refine ⟨?_, hqid, ?_, ?_, ?_⟩
    · simp only [patients_ajax_update, Bool.not_true, hid, hfind, happ, hsave]
      rfl
    · rw [updateById, List.length_map]
    · intro x hx hne
      rw [updateById]
      have : (fun y : Patient => if y.id = p.id then p' else y) x = x := if_neg hne
      rw [← this]
      exact List.mem_map_of_mem _ hx
    · intro x hx hne
      rw [updateById] at hx
      obtain ⟨a, ha, hax⟩ := List.mem_map.mp hx
      by_cases hc : a.id = p.id
      · rw [if_pos hc] at hax
        subst hax
        exact absurd hqid hne
      · rw [if_neg hc] at hax
        subst hax
        exact ha
  · intro p k v rest hk
    exact applyUpdates_skip p k v rest hk

/-- Witness for C10: a payload with `age` set to JSON `null` is rejected
with 400 and the one-patient database is unchanged. -/
theorem C10_ajax_update_witness :
    pyIntOfJVal (.jint 1) = some 1 ∧
    [⟨1, "Alice", "Brown", 30, "Checkup"⟩].find?
      (fun p : Patient => ((p.id : Int) == 1)) = some ⟨1, "Alice", "Brown", 30, "Checkup"⟩ ∧
    applyUpdates (pendingOf ⟨1, "Alice", "Brown", 30, "Checkup"⟩) [("age", .jnull)] = none ∧
    patients_ajax_update true (some (.jint 1, [("age", .jnull)]))
      ⟨[⟨1, "Alice", "Brown", 30, "Checkup"⟩], [], []⟩
      = (400, ⟨[⟨1, "Alice", "Brown", 30, "Checkup"⟩], [], []⟩) :=
  ⟨by decide, by decide, by decide,
    (C10_ajax_update ⟨[⟨1, "Alice", "Brown", 30, "Checkup"⟩], [], []⟩ none).2.2.2.2.1
      (.jint 1) [("age", .jnull)] 1 ⟨1, "Alice", "Brown", 30, "Checkup"⟩
      (by decide) (by decide) (by decide)⟩

theorem lookup_append (l₁ l₂ : List (String × PyVal)) (k : String) :
    List.lookup k (l₁ ++ l₂) = (List.lookup k l₁).or (List.lookup k l₂) := by
  induction l₁ with
  | nil => simp [Option.or]
  | cons e rest ih =>
    obtain ⟨k1, v1⟩ := e
    by_cases hk : k = k1
    · simp [List.lookup, hk, Option.or]
    · simp only [List.cons_append, List.lookup,
        show (k == k1) = false from by simpa using hk]
      exact ih

theorem lookup_none_iff (l : List (String × PyVal)) (k : String) :
    List.lookup k l = none ↔ ∀ p ∈ l, p.1 ≠ k := by
  induction l with
  | nil => simp
  | cons e rest ih =>
    obtain ⟨k1, v1⟩ := e
    by_cases hk : k = k1
    · simp [List.lookup, hk]
    · simp only [List.lookup, show (k == k1) = false from by simpa using hk,
        List.mem_cons, forall_eq_or_imp]
      rw [ih]
      simp [Ne.symm hk]

theorem lookup_map_set (d : PyDict) (k : String) (v : PyVal)
    (h : (d.any fun e => e.1 == k) = true) :
    List.lookup k (d.map fun e => if e.1 == k then (k, v) else e) = some v := by
  induction d with
  | nil => simp at h
  | cons e rest ih =>
    simp only [List.map_cons]
    by_cases he : e.1 = k
    · rw [if_pos (show (e.1 == k) = true from by simpa using he)]
      simp [List.lookup]
    · have h' : (rest.any fun e => e.1 == k) = true := by
        simp only [List.any_cons, Bool.or_eq_true] at h
        rcases h with h | h
        · exact absurd (by simpa using h) he
        · exact h
      simp only [List.map_cons, show (e.1 == k) = false from by simpa using he,
        Bool.false_eq_true, if_false]
      simp only [List.lookup, show (k == e.1) = false from by
        simpa using fun hc => he hc.symm]
      exact ih h'

theorem lookup_map_other (d : PyDict) (k k' : String) (v : PyVal) (hne : k' ≠ k) :
    List.lookup k' (d.map fun e => if e.1 == k then (k, v) else e)
      = List.lookup k' d := by
  induction d with
  | nil => rfl
  | cons e rest ih =>
    by_cases he : e.1 = k
    · simp only [List.map_cons, show (e.1 == k) = true from by simpa using he, if_true]
      simp only [List.lookup, show (k' == k) = false from by simpa using hne,
        show (k' == e.1) = false from by simp [he]; simpa using hne]
      exact ih
    · simp only [List.map_cons, show (e.1 == k) = false from by simpa using he,
        Bool.false_eq_true, if_false]
      cases hk : (k' == e.1) <;> simp only [List.lookup, hk]
      exact ih

theorem dictSet_lookup (d : PyDict) (k k' : String) (v : PyVal) :
    List.lookup k' (dictSet d k v)
      = if k' = k then some v else List.lookup k' d := by
  rw [dictSet]
  by_cases hany : (d.any fun e => e.1 == k) = true
  · rw [if_pos hany]
    by_cases hk : k' = k
    · rw [if_pos hk, hk]
      exact lookup_map_set d k v hany
    · rw [if_neg hk]
      exact lookup_map_other d k k' v hk
  · rw [if_neg hany, lookup_append]
    by_cases hk : k' = k
    · subst hk
      have hnone : List.lookup k' d = none := by
        rw [lookup_none_iff]
        intro p hp hpk
        exact hany (List.any_eq_true.mpr ⟨p, hp, by simp [hpk]⟩)
      rw [if_pos rfl, hnone]
      simp [List.lookup, Option.or]
    · simp only [if_neg hk]
      have : List.lookup k' [(k, v)] = none := by
        simp [List.lookup, show (k' == k) = false from by simpa using hk]
      rw [this]
      cases List.lookup k' d <;> simp [Option.or]

theorem setTop_append (l : List PyDict) (d : PyDict) (k : String) (v : PyVal) :
    setTop (l ++ [d]) k v = l ++ [dictSet d k v] := by
  induction l with
  | nil => rfl
  | cons a l ih =>
    cases l with
    | nil => rfl
    | cons b l' =>
      show a :: setTop ((b :: l') ++ [d]) k v = a :: ((b :: l') ++ [dictSet d k v])
      rw [ih]

theorem foldl_setTop_append (items : List (String × PyVal)) (l : List PyDict)
    (d : PyDict) :
    items.foldl (fun acc kv => setTop acc kv.1 kv.2) (l ++ [d])
      = l ++ [topAfter d items] := by
  induction items generalizing d with
  | nil => rfl
  | cons kv items ih =>
    rw [List.foldl_cons, setTop_append]
    exact ih (dictSet d kv.1 kv.2)

theorem writeAll_append (l : List PyDict) (d : PyDict) (src : List PyDict) :
    writeAll (l ++ [d]) src = l ++ [topAfter d src.flatten] := by
  induction src generalizing d with
  | nil => rfl
  | cons dd src ih =>
    show src.foldl _ ((dd : List (String × PyVal)).foldl
      (fun acc' kv => setTop acc' kv.1 kv.2) (l ++ [d])) = _
    rw [foldl_setTop_append]
    have h2 := ih (topAfter d dd)
    rw [writeAll] at h2
    rw [h2, List.flatten_cons, topAfter, topAfter, topAfter, List.foldl_append]

theorem topAfter_lookup (items : List (String × PyVal)) (d0 : PyDict) (k : String) :
    List.lookup k (topAfter d0 items)
      = (lastWrite items k).or (List.lookup k d0) := by
  induction items generalizing d0 with
  | nil => simp [topAfter, lastWrite, Option.or]
  | cons kv items ih =>
    obtain ⟨k1, v1⟩ := kv
    have hl : lastWrite ((k1, v1) :: items) k
        = (lastWrite items k).or (List.lookup k [(k1, v1)]) := by
      rw [lastWrite, List.reverse_cons, lookup_append]
      rfl
    rw [show topAfter d0 ((k1, v1) :: items) = topAfter (dictSet d0 k1 v1) items from rfl,
      ih, dictSet_lookup, hl]
    by_cases hk : k = k1
    · cases h : lastWrite items k <;>
        simp [List.lookup, show (k == k1) = true from by simpa using hk, hk, Option.or]
    · cases h : lastWrite items k <;>
        simp [List.lookup, show (k == k1) = false from by simpa using hk, hk, Option.or]

theorem visibleGet_cons (d : PyDict) (ds : List PyDict) (k : String) :
    visibleGet (d :: ds) k = (visibleGet ds k).or (List.lookup k d) := by
  cases h : visibleGet ds k <;> simp [visibleGet, h, Option.or]

theorem visibleGet_append_single (l : List PyDict) (d : PyDict) (k : String) :
    visibleGet (l ++ [d]) k = (List.lookup k d).or (visibleGet l k) := by
  induction l with
  | nil =>
    rw [List.nil_append, visibleGet_cons]
    cases List.lookup k d <;> simp [visibleGet, Option.or]
  | cons a l ih =>
    rw [List.cons_append, visibleGet_cons, ih, visibleGet_cons]
    cases List.lookup k d <;> cases visibleGet l k <;> simp [Option.or]

theorem visibleGet_none_lookup (ds : List PyDict) (k : String)
    (h : visibleGet ds k = none) : ∀ d ∈ ds, List.lookup k d = none := by
  induction ds with
  | nil => simp
  | cons d ds ih =>
    rw [visibleGet_cons] at h
    intro d' hd'
    rcases List.mem_cons.mp hd' with rfl | hd'
    · cases hv : visibleGet ds k <;> rw [hv] at h
      · simpa [Option.or] using h
      · simp [Option.or] at h
    · cases hv : visibleGet ds k <;> rw [hv] at h
      · exact ih hv d' hd'
      · simp [Option.or] at h

theorem lookup_reverse_of_nodup (d : PyDict) (k : String) (v : PyVal)
    (hnd : (d.map Prod.fst).Nodup) (h : List.lookup k d = some v) :
    List.lookup k d.reverse = some v := by
  induction d with
  | nil => simp at h
  | cons e rest ih =>
    obtain ⟨k1, v1⟩ := e
    simp only [List.map_cons, List.nodup_cons] at hnd
    rw [List.reverse_cons, lookup_append]
    by_cases hk : k = k1
    · subst hk
      simp only [List.lookup, beq_self_eq_true] at h
      have hrest : List.lookup k rest = none := by
        rw [lookup_none_iff]
        intro p hp hpk
        exact hnd.1 (hpk ▸ List.mem_map_of_mem Prod.fst hp)
      have hrev : List.lookup k rest.reverse = none := by
        rw [lookup_none_iff]
        intro p hp hpk
        exact hnd.1 (hpk ▸ List.mem_map_of_mem Prod.fst (List.mem_reverse.mp hp))
      rw [hrev]
      simpa [List.lookup, Option.or] using h
    · simp only [List.lookup, show (k == k1) = false from by simpa using hk] at h
      rw [ih hnd.2 h]
      rfl

theorem lastWrite_flatten (ds : List PyDict) (k : String) (v : PyVal)
    (hnd : ∀ d ∈ ds, (d.map Prod.fst).Nodup)
    (h : visibleGet ds k = some v) :
    lastWrite ds.flatten k = some v := by
  induction ds with
  | nil => simp [visibleGet] at h
  | cons d ds ih =>
    rw [visibleGet_cons] at h
    rw [List.flatten_cons, lastWrite, List.reverse_append, lookup_append]
    cases hv : visibleGet ds k with
    | some v' =>
      rw [hv] at h
      simp only [Option.or] at h
      rw [show (List.lookup k ds.flatten.reverse) = lastWrite ds.flatten k from rfl,
        ih (fun d' hd' => hnd d' (List.mem_cons_of_mem d hd')) (hv.trans h)]
      rfl
    | none =>
      rw [hv] at h
      simp only [Option.or] at h
      have hfl : List.lookup k ds.flatten.reverse = none := by
        rw [lookup_none_iff]
        intro p hp hpk
        obtain ⟨d', hd', hpd'⟩ := List.mem_flatten.mp (List.mem_reverse.mp hp)
        have := visibleGet_none_lookup ds k hv d' hd'
        rw [lookup_none_iff] at this
        exact this p hpd' hpk
      rw [hfl, lookup_reverse_of_nodup d k v (hnd d (List.mem_cons_self d ds)) h]
      rfl

theorem writeAll_eq (padded : List PyDict) (h : padded ≠ []) (src : List PyDict) :
    writeAll padded src
      = padded.dropLast ++ [topAfter (padded.getLast h) src.flatten] := by
  conv_lhs => rw [← List.dropLast_append_getLast h]
  rw [writeAll_append]

theorem contextCopyPadded_len (self : Ctx) :
    contextCopyIdx self < (contextCopyPadded self).length := by
  rw [contextCopyPadded, List.length_append, List.length_replicate]
  omega

theorem contextCopyPadded_ne_nil (self : Ctx) : contextCopyPadded self ≠ [] := by
  intro h
  have := contextCopyPadded_len self
  rw [h] at this
  simp at this

theorem contextCopyDicts_len (self : Ctx) :
    contextCopyIdx self < (contextCopyDicts self).length := by
  have hp := contextCopyPadded_len self
  rw [contextCopyDicts]
  cases dictOfSeq [] (self.dicts.getD []).reverse with
  | some g =>
    rw [List.length_append]
    omega
  | none =>
    rw [writeAll_eq (contextCopyPadded self) (contextCopyPadded_ne_nil self),
      List.length_append, List.length_dropLast]
    simp only [List.length_singleton]
    omega

theorem contextCopyDicts_none (self : Ctx) (ds : List PyDict)
    (hds : self.dicts = some ds) (hm : dictOfSeq [] ds.reverse = none) :
    contextCopyDicts self = writeAll (contextCopyPadded self) ds := by
  rw [contextCopyDicts, hds, Option.getD_some, hm]

theorem contextCopyDicts_some (self : Ctx) (ds : List PyDict) (g : PyDict)
    (hds : self.dicts = some ds) (hm : dictOfSeq [] ds.reverse = some g) :
    contextCopyDicts self = contextCopyPadded self ++ [g] := by
  rw [contextCopyDicts, hds, Option.getD_some, hm]

theorem contextCopyDicts_take (self : Ctx) (ds : List PyDict)
    (hds : self.dicts = some ds) :
    (contextCopyDicts self).take (ds.length - 1) = ds.take (ds.length - 1) := by
  have hget : self.dicts.getD [] = ds := by rw [hds]; rfl
  have hlen : ds.length ≤ (contextCopyPadded self).length := by
    rw [contextCopyPadded, hget, List.length_append]
    omega
  have hpad : (contextCopyPadded self).take (ds.length - 1)
      = ds.take (ds.length - 1) := by
    rw [contextCopyPadded, hget, List.take_append_of_le_length (by omega)]
  rcases hm : dictOfSeq [] ds.reverse with _ | g
  · rw [contextCopyDicts_none self ds hds hm,
      writeAll_eq _ (contextCopyPadded_ne_nil self),
      List.take_append_of_le_length (by rw [List.length_dropLast]; omega),
      List.dropLast_eq_take, List.take_take,
      show min (ds.length - 1) ((contextCopyPadded self).length - 1)
        = ds.length - 1 from by omega]
    exact hpad
  · rw [contextCopyDicts_some self ds g hds hm,
      List.take_append_of_le_length (by omega)]
    exact hpad

theorem contextCopyDicts_visible (self : Ctx) (ds : List PyDict)
    (hds : self.dicts = some ds) (hm : dictOfSeq [] ds.reverse = none)
    (hnd : ∀ d ∈ ds, (d.map Prod.fst).Nodup) (k : String) (v : PyVal)
    (hvis : visibleGet ds k = some v) :
    visibleGet (contextCopyDicts self) k = some v := by
  rw [contextCopyDicts_none self ds hds hm,
    writeAll_eq _ (contextCopyPadded_ne_nil self),
    visibleGet_append_single, topAfter_lookup,
    lastWrite_flatten ds k v hnd hvis]
  rfl

/-- C2 counterexample: for a context whose stack is `[builtins, {}]` — the
state every plain `Context()` used by the app reaches after one
`update({})` — the patched copy's `dicts` is not a list of copies of the
original's stack: the final mapping-copy step rewrites the top dict, leaving
`[builtins, builtins-items]` instead of `[builtins, {}]`. -/
theorem C2_context_copy_counterexample :
    c2Self.dicts = some [builtinsDict, []] ∧
    (contextCopy c2Self).dicts ≠ some [builtinsDict, []] ∧
    (contextCopy c2Self).dicts
      = some [builtinsDict,
          [("True", PyVal.boolv true), ("False", PyVal.boolv false),
           ("None", PyVal.nonev)]] := by decide

/-- C2 (amended): the patched `Context.__copy__` never fails; the duplicate
always has a `dicts` list and a non-negative `_processors_index` that is a
valid index into it; all of the original's dicts except possibly the last
survive unchanged as an initial segment of the duplicate's stack; and when
the `dict(self)` shortcut raises (some original dict does not have exactly
two keys) and every original dict has unique keys, every key/value visible
in the original mapping is visible in the duplicate. -/
theorem C2_context_copy (self : Ctx) :
    (∃ ds' : List PyDict, (contextCopy self).dicts = some ds' ∧
      ∃ n : Nat, (contextCopy self).processors_index = some (n : Int) ∧
        n < ds'.length) ∧
    (∀ ds : List PyDict, self.dicts = some ds →
      ((contextCopy self).dicts.getD []).take (ds.length - 1)
        = ds.take (ds.length - 1)) ∧
    (∀ ds : List PyDict, self.dicts = some ds →
      dictOfSeq [] ds.reverse = none →
      (∀ d ∈ ds, (d.map Prod.fst).Nodup) →
      ∀ (k : String) (v : PyVal), visibleGet ds k = some v →
        visibleGet ((contextCopy self).dicts.getD []) k = some v) := by
  refine ⟨⟨contextCopyDicts self, rfl, contextCopyIdx self, rfl,
    contextCopyDicts_len self⟩, ?_, ?_⟩
  · intro ds hds
    exact contextCopyDicts_take self ds hds
  · intro ds hds hm hnd k v hvis
    exact contextCopyDicts_visible self ds hds hm hnd k v hvis

/-- Witness for C2 at the two-dict context `c2Self`: the `dict(self)`
shortcut raises there, and the visible binding of `"True"` survives the
copy. -/
theorem C2_context_copy_witness :
    c2Self.dicts = some [builtinsDict, []] ∧
    dictOfSeq [] ([builtinsDict, []] : List PyDict).reverse = none ∧
    visibleGet [builtinsDict, []] "True" = some (PyVal.boolv true) ∧
    visibleGet ((contextCopy c2Self).dicts.getD []) "True"
      = some (PyVal.boolv true) :=
  ⟨by decide, by decide, by decide,
    (C2_context_copy c2Self).2.2 [builtinsDict, []] (by decide) (by decide)
      (by decide) "True" (PyVal.boolv true) (by decide)⟩
